import Mathlib

/-!
Verification development for the map-rendering and caching core of a
community map bot.  Each Python function relevant to a verified property is
shallowly embedded as an executable Lean definition, translated from the
source in `core/map_storage.py`, `core/cache_manager.py`, `core/map_gen.py`
and `core/map_config.py`.  Machine words are modelled as `Nat` reduced
modulo `2 ^ 32`; strings are Lean `String`s hashed over their UTF-8 bytes,
matching `hashlib.md5(s.encode())`.
-/

set_option maxRecDepth 100000

namespace MD5

/-- Word size of the MD5 state: all word arithmetic is reduced modulo `2^32`. -/
def M32 : Nat := 4294967296

/-- Addition of 32-bit words. -/
def add32 (a b : Nat) : Nat := (a + b) % M32

/-- Left rotation of a 32-bit word by `c` places (`0 < c < 32`). -/
def rotl (x c : Nat) : Nat := ((x <<< c) % M32) ||| (x >>> (32 - c))

/-- Bitwise complement within 32 bits. -/
def notW (x : Nat) : Nat := x ^^^ 4294967295

/-- The 64 sine-derived round constants of MD5 (RFC 1321). -/
def kTable : Array Nat := #[
  3614090360, 3905402710, 606105819, 3250441966, 4118548399, 1200080426, 2821735955, 4249261313,
  1770035416, 2336552879, 4294925233, 2304563134, 1804603682, 4254626195, 2792965006, 1236535329,
  4129170786, 3225465664, 643717713, 3921069994, 3593408605, 38016083, 3634488961, 3889429448,
  568446438, 3275163606, 4107603335, 1163531501, 2850285829, 4243563512, 1735328473, 2368359562,
  4294588738, 2272392833, 1839030562, 4259657740, 2763975236, 1272893353, 4139469664, 3200236656,
  681279174, 3936430074, 3572445317, 76029189, 3654602809, 3873151461, 530742520, 3299628645,
  4096336452, 1126891415, 2878612391, 4237533241, 1700485571, 2399980690, 4293915773, 2240044497,
  1873313359, 4264355552, 2734768916, 1309151649, 4149444226, 3174756917, 718787259, 3951481745]

/-- The per-round left-rotation amounts of MD5 (RFC 1321). -/
def sTable : Array Nat := #[
  7, 12, 17, 22, 7, 12, 17, 22, 7, 12, 17, 22, 7, 12, 17, 22,
  5, 9, 14, 20, 5, 9, 14, 20, 5, 9, 14, 20, 5, 9, 14, 20,
  4, 11, 16, 23, 4, 11, 16, 23, 4, 11, 16, 23, 4, 11, 16, 23,
  6, 10, 15, 21, 6, 10, 15, 21, 6, 10, 15, 21, 6, 10, 15, 21]

/-- The nonlinear mixing function of round `i` applied to words `b c d`. -/
def mixF (i b c d : Nat) : Nat :=
  if i < 16 then (b &&& c) ||| (notW b &&& d)
  else if i < 32 then (d &&& b) ||| (notW d &&& c)
  else if i < 48 then b ^^^ c ^^^ d
  else c ^^^ (b ||| notW d)

/-- The message word index accessed in round `i`. -/
def gIndex (i : Nat) : Nat :=
  if i < 16 then i
  else if i < 32 then (5 * i + 1) % 16
  else if i < 48 then (3 * i + 5) % 16
  else (7 * i) % 16

/-- Little-endian decoding of the `g`-th 32-bit word of a 64-byte block. -/
def word (block : List Nat) (g : Nat) : Nat :=
  block.getD (4 * g) 0 + block.getD (4 * g + 1) 0 * 256 +
    block.getD (4 * g + 2) 0 * 65536 + block.getD (4 * g + 3) 0 * 16777216

/-- One of the 64 MD5 rounds on the state quadruple `(a, b, c, d)`. -/
def roundStep (block : List Nat) (st : Nat × Nat × Nat × Nat) (i : Nat) :
    Nat × Nat × Nat × Nat :=
  let a := st.1
  let b := st.2.1
  let c := st.2.2.1
  let d := st.2.2.2
  let f := add32 (add32 (add32 a (mixF i b c d)) (kTable.getD i 0)) (word block (gIndex i))
  (d, add32 b (rotl f (sTable.getD i 0)), b, c)

/-- Compression of one 64-byte block into the running state. -/
def processBlock (st : Nat × Nat × Nat × Nat) (block : List Nat) :
    Nat × Nat × Nat × Nat :=
  let r := (List.range 64).foldl (roundStep block) st
  (add32 st.1 r.1, add32 st.2.1 r.2.1, add32 st.2.2.1 r.2.2.1, add32 st.2.2.2 r.2.2.2)

/-- Little-endian byte rendering of `n` on `k` bytes. -/
def leBytes (n k : Nat) : List Nat :=
  match k with
  | 0 => []
  | k + 1 => n % 256 :: leBytes (n / 256) k

/-- MD5 padding: a `0x80` byte, zeros up to 56 mod 64, then the bit length
on 8 little-endian bytes. -/
def padBytes (msg : List Nat) : List Nat :=
  msg ++ [128] ++ List.replicate ((120 - (msg.length % 64 + 1)) % 64) 0 ++
    leBytes (8 * msg.length) 8

/-- Split a byte list into its successive 64-byte blocks (structural recursion
on a fuel bound so the kernel can evaluate it). -/
def toBlocksAux : Nat → List Nat → List (List Nat)
  | 0, _ => []
  | _, [] => []
  | fuel + 1, a :: l => ((a :: l).take 64) :: toBlocksAux fuel ((a :: l).drop 64)

/-- Split a byte list into its successive 64-byte blocks. -/
def toBlocks (l : List Nat) : List (List Nat) := toBlocksAux l.length l

/-- Hexadecimal digit characters, lowercase as produced by `hexdigest()`. -/
def hexDigit (n : Nat) : Char :=
  if n < 10 then Char.ofNat (48 + n) else Char.ofNat (87 + n)

/-- Two lowercase hex characters for one byte. -/
def byteHex (b : Nat) : String := String.mk [hexDigit (b / 16 % 16), hexDigit (b % 16)]

/-- Little-endian hex rendering of a 32-bit state word, as in the MD5 digest. -/
def wordLEHex (w : Nat) : String :=
  byteHex (w % 256) ++ byteHex (w / 256 % 256) ++ byteHex (w / 65536 % 256) ++
    byteHex (w / 16777216 % 256)

/-- MD5 digest of a byte string, rendered as 32 lowercase hex characters. -/
def md5Bytes (msg : List Nat) : String :=
  let st := (toBlocks (padBytes msg)).foldl processBlock
    (1732584193, 4023233417, 2562383102, 271733878)
  wordLEHex st.1 ++ wordLEHex st.2.1 ++ wordLEHex st.2.2.1 ++ wordLEHex st.2.2.2

/-- UTF-8 encoding of one character. -/
def utf8Char (c : Char) : List Nat :=
  let n := c.toNat
  if n < 128 then [n]
  else if n < 2048 then [192 + n / 64, 128 + n % 64]
  else if n < 65536 then [224 + n / 4096, 128 + n / 64 % 64, 128 + n % 64]
  else [240 + n / 262144, 128 + n / 4096 % 64, 128 + n / 64 % 64, 128 + n % 64]

/-- UTF-8 bytes of a string, as hashed by `s.encode()` in the source. -/
def strBytes (s : String) : List Nat :=
  s.data.foldr (fun c acc => utf8Char c ++ acc) []

/-- The full `hashlib.md5(s.encode()).hexdigest()` of the source. -/
def md5Hex (s : String) : String := md5Bytes (strBytes s)

/-- The truncated digest `hexdigest()[:8]` used in every cache key (the
slice takes the first eight characters). -/
def md5Hex8 (s : String) : String := String.mk ((md5Hex s).data.take 8)

example : md5Hex "" = "d41d8cd98f00b204e9800998ecf8427e" := by decide
example : md5Hex "abc" = "900150983cd24fb0d6963f7d28e17f72" := by decide
example : md5Hex "The quick brown fox jumps over the lazy dog" =
    "9e107d9d372bb6826bd81d3542a419d6" := by decide

end MD5

namespace MapBot

mutual

/-- JSON values as stored in a guild's `map.json` settings.  Numbers are
carried as their Python `repr` literal string: floats are in bijection with
their shortest round-trip decimal representation, which is exactly what
`json.dumps` emits, so no information is lost by this encoding. -/
inductive JVal where
  | str (s : String)
  | num (lit : String)
  | bool (b : Bool)
  | null
  | arr (elems : JArr)
  | obj (fields : JObj)

/-- The element spine of a JSON array (a mutual copy of `List JVal`, so that
all recursions over the tree are structural and kernel-executable). -/
inductive JArr where
  | nil
  | cons (v : JVal) (tl : JArr)

/-- The field spine of a JSON object (a mutual copy of
`List (String × JVal)`). -/
inductive JObj where
  | nil
  | cons (k : String) (v : JVal) (tl : JObj)

end

/-- Build an object value from an association list. -/
def toJObj : List (String × JVal) → JObj
  | [] => .nil
  | (k, v) :: fs => .cons k v (toJObj fs)

/-- Build an array value from a list. -/
def toJArr : List JVal → JArr
  | [] => .nil
  | v :: vs => .cons v (toJArr vs)

/-- Object constructor taking an association list. -/
def JVal.objL (l : List (String × JVal)) : JVal := .obj (toJObj l)

/-- Array constructor taking a list. -/
def JVal.arrL (l : List JVal) : JVal := .arr (toJArr l)

/-- Membership test on an object's keys (`k in d` on a Python dict). -/
def JObj.hasKey (k : String) : JObj → Bool
  | .nil => false
  | .cons k' _ tl => k == k' || JObj.hasKey k tl

/-- Removal of one key (`d.pop(k, None)`; dict keys are unique). -/
def JObj.popKey (k : String) : JObj → JObj
  | .nil => .nil
  | .cons k' v tl => if k == k' then JObj.popKey k tl else .cons k' v (JObj.popKey k tl)

/-- Emptiness of an object (`bool(d)` is false exactly on the empty dict). -/
def JObj.isEmpty : JObj → Bool
  | .nil => true
  | .cons _ _ _ => false

/-- Lookup of a key (`d[k]` / `d.get(k)`; dict keys are unique, the first
binding wins). -/
def JObj.lookup (k : String) : JObj → Option JVal
  | .nil => none
  | .cons k' v tl => if k == k' then some v else JObj.lookup k tl

/-- Four lowercase hex digits, as in a `\uXXXX` escape. -/
def hex4 (n : Nat) : String :=
  String.mk [MD5.hexDigit (n / 4096 % 16), MD5.hexDigit (n / 256 % 16),
    MD5.hexDigit (n / 16 % 16), MD5.hexDigit (n % 16)]

/-- Escaping of one character inside a JSON string, matching `json.dumps`
with its default `ensure_ascii=True` (printable ASCII `0x20..0x7e` kept,
everything else escaped). -/
def escapeChar (c : Char) : String :=
  if c = '"' then "\\\""
  else if c = '\\' then "\\\\"
  else if c = '\n' then "\\n"
  else if c = '\t' then "\\t"
  else if c = '\r' then "\\r"
  else if c.toNat = 8 then "\\b"
  else if c.toNat = 12 then "\\f"
  else if c.toNat < 32 then "\\u" ++ hex4 c.toNat
  else if c.toNat < 127 then String.mk [c]
  else if c.toNat < 65536 then "\\u" ++ hex4 c.toNat
  else
    "\\u" ++ hex4 (55296 + (c.toNat - 65536) / 1024) ++
      "\\u" ++ hex4 (56320 + (c.toNat - 65536) % 1024)

/-- JSON string-body escaping of a whole string. -/
def escapeStr (s : String) : String :=
  s.data.foldr (fun c acc => escapeChar c ++ acc) ""

/-- Stable insertion of `a` into a `le`-sorted list, before the first element
it is `le`-related to (the order produced by Python's stable `sorted`). -/
def insertLe (le : α → α → Bool) (a : α) : List α → List α
  | [] => [a]
  | x :: xs => if le a x then a :: x :: xs else x :: insertLe le a xs

/-- Stable sort by `le` (insertion sort: total and kernel-executable). -/
def sortLe (le : α → α → Bool) (l : List α) : List α := l.foldr (insertLe le) []

/-- Lexicographic comparison of character lists by code point. -/
def strLeChars : List Char → List Char → Bool
  | [], _ => true
  | _ :: _, [] => false
  | a :: as, b :: bs =>
      if a.toNat < b.toNat then true
      else if b.toNat < a.toNat then false
      else strLeChars as bs

/-- String comparison by Unicode code point, the order Python's `sorted`
uses on dict keys. -/
def pyStrLe (a b : String) : Bool := strLeChars a.data b.data

mutual

/-- Serialization of one value.  Object fields are rendered first and then
sorted by their (unrendered) key, which agrees with sorting the fields
before rendering since rendering keeps the key unchanged. -/
def jdumpsV : JVal → String
  | .str s => "\"" ++ escapeStr s ++ "\""
  | .num lit => lit
  | .bool b => cond b "true" "false"
  | .null => "null"
  | .arr es => "[" ++ String.intercalate ", " (jdumpsArr es) ++ "]"
  | .obj fs =>
      "\x7b" ++
        String.intercalate ", "
          ((sortLe (fun a b => pyStrLe a.1 b.1) (jdumpsObj fs)).map Prod.snd) ++
        "\x7d"

/-- Serialization of the elements of an array. -/
def jdumpsArr : JArr → List String
  | .nil => []
  | .cons v vs => jdumpsV v :: jdumpsArr vs

/-- Rendering of an object's fields, keeping the key for sorting. -/
def jdumpsObj : JObj → List (String × String)
  | .nil => []
  | .cons k v fs => (k, "\"" ++ escapeStr k ++ "\": " ++ jdumpsV v) :: jdumpsObj fs

end

/-- `json.dumps(v, sort_keys=True)` with the default separators `", "` and
`": "`, as used by every cache-key hash in `map_storage.py`. -/
def jdumps (v : JVal) : String := jdumpsV v

example :
    jdumps (JVal.objL [("b", JVal.num "1"),
      ("a", JVal.objL [("d", JVal.num "2"), ("c", JVal.num "3")])]) =
    "\x7b\"a\": \x7b\"c\": 3, \"d\": 2\x7d, \"b\": 1\x7d" := by decide

/-- A stored pin.  Only the coordinates enter any cache key; `lat`/`lng` are
the Python float values, carried as their `repr` literals (see `JVal.num`);
the remaining stored fields (username, location, timestamp) are never
hashed and are omitted. -/
structure Pin where
  lat : String
  lng : String
  deriving DecidableEq

/-- The per-guild record inside the `maps` dictionary: its `settings` dict
(an absent `settings` key and an empty dict coincide, both being falsy in
the source) and its `pins` dict mapping user id to pin. -/
structure GuildData where
  settings : JObj
  pins : List (String × Pin)

/-- The `maps` dictionary passed to every cache function. -/
def Maps : Type := List (String × GuildData)

/-- `maps.get(guild_id, {})`. -/
def getGuild (maps : Maps) (g : String) : GuildData :=
  (List.lookup g maps).getD ⟨.nil, []⟩

/-- `UnifiedCacheManager._has_custom_settings`: `bool(map_data.get('settings'))`. -/
def hasCustomSettings (maps : Maps) (g : String) : Bool :=
  !(getGuild maps g).settings.isEmpty

/-- The two disk scopes of the cache: the shared cache directory
(`self.cache_dir`) and a guild's own directory (`self.data_dir / guild_id`). -/
inductive CacheDir where
  | shared
  | guild (g : String)
  deriving DecidableEq

/-- `UnifiedCacheManager._get_cache_location` (the human-readable location
label of the source is dropped; only the directory matters). -/
def getCacheLocation (maps : Maps) (g : String) : CacheDir :=
  if hasCustomSettings maps g then .guild g else .shared

/-- The `base_map_settings` dict built inside `generate_base_map_cache_key`
and `generate_cache_key`'s closeup-base branch: `colors` verbatim when
present, `borders` with the key `'pin'` popped and kept only when nonempty
afterwards, and pin settings excluded.  In the repository the `borders`
value is always a dict (the settings UI writes one); a non-dict value would
raise `AttributeError` in the source and is mapped to the absent case
here. -/
def baseMapSettings (settings : JObj) : JObj :=
  let withBorders : JObj :=
    match settings.lookup "borders" with
    | some (JVal.obj bs) =>
        let bs' := bs.popKey "pin"
        if bs'.isEmpty then .nil else .cons "borders" (JVal.obj bs') .nil
    | _ => .nil
  match settings.lookup "colors" with
  | some v => .cons "colors" v withBorders
  | none => withBorders

/-- The settings-dependent last component of the base-map key: the truncated
digest of the serialized base-map settings, or `"default"` when the guild
has no settings affecting the base layer. -/
def baseSettingsSuffix (settings : JObj) : String :=
  if settings.isEmpty then "default"
  else
    let bms := baseMapSettings settings
    if bms.isEmpty then "default"
    else MD5.md5Hex8 (jdumps (JVal.obj bms))

/-- `UnifiedCacheManager.generate_base_map_cache_key`: the join
`"_".join(["base_map", region, str(width), str(height), suffix])` written
out for its five components. -/
def generateBaseMapCacheKey (maps : Maps) (g region : String)
    (width height : Nat) : String :=
  "base_map_" ++ region ++ "_" ++ toString width ++ "_" ++ toString height ++
    "_" ++ baseSettingsSuffix (getGuild maps g).settings

/-- `UnifiedCacheManager.generate_settings_hash`: digest over the
`colors`/`borders`/`pins` entries of the settings, `"default"` when the
settings dict is falsy or has none of the three keys. -/
def generateSettingsHash (maps : Maps) (g : String) : String :=
  let settings := (getGuild maps g).settings
  if settings.isEmpty then "default"
  else
    let visual := ["colors", "borders", "pins"].filterMap
      (fun k => (settings.lookup k).map (fun v => (k, v)))
    if visual.isEmpty then "default"
    else MD5.md5Hex8 (jdumps (JVal.objL visual))

/-- The `pin_data` dict `{uid: (pin['lat'], pin['lng'])}` serialized by the
final-map and closeup branches of `generate_cache_key` (tuples become JSON
arrays). -/
def pinData (pins : List (String × Pin)) : JVal :=
  JVal.objL (pins.map (fun kv =>
    (kv.1, JVal.arrL [JVal.num kv.2.lat, JVal.num kv.2.lng])))

/-- The truncated digest of the serialized pin positions. -/
def pinHash (pins : List (String × Pin)) : String :=
  MD5.md5Hex8 (jdumps (pinData pins))

/-- `generate_cache_key` for `cache_type = "final_map"`:
`"_".join(["final_map", region, pin_hash, settings_hash])`. -/
def generateFinalMapCacheKey (maps : Maps) (g region : String) : String :=
  "final_map_" ++ region ++ "_" ++ pinHash (getGuild maps g).pins ++ "_" ++
    generateSettingsHash maps g

example :
    jdumps (JVal.objL [("colors", JVal.objL [("land", JVal.str "#001e50")])]) =
    "\x7b\"colors\": \x7b\"land\": \"#001e50\"\x7d\x7d" := by decide

example :
    MD5.md5Hex8 "\x7b\"colors\": \x7b\"land\": \"#001e50\"\x7d\x7d" = "66767200" := by decide

example :
    MD5.md5Hex8 "\x7b\"colors\": \x7b\"land\": \"#00943f\"\x7d\x7d" = "66767200" := by decide

/-! String-level helper lemmas used to reason about the `"_".join` keys. -/

theorem strData_append (a b : String) : (a ++ b).data = a.data ++ b.data := by
  cases a
  cases b
  rfl

theorem strEq_of_data {a b : String} (h : a.data = b.data) : a = b := by
  cases a
  cases b
  exact congrArg String.mk h

theorem strLength_data (s : String) : s.data.length = s.length := rfl

theorem strAppend_left_cancel {p a b : String} : p ++ a = p ++ b ↔ a = b := by
  constructor
  · intro h
    apply strEq_of_data
    have hd := congrArg String.data h
    rw [strData_append, strData_append] at hd
    exact List.append_cancel_left hd
  · intro h
    rw [h]

theorem wordLEHex_length (w : Nat) : (MD5.wordLEHex w).length = 8 := by
  simp [MD5.wordLEHex, MD5.byteHex, String.length_append]

theorem md5Hex_length (s : String) : (MD5.md5Hex s).length = 32 := by
  unfold MD5.md5Hex MD5.md5Bytes
  simp [String.length_append, wordLEHex_length]

theorem md5Hex8_length (s : String) : (MD5.md5Hex8 s).data.length = 8 := by
  unfold MD5.md5Hex8
  simp only [List.length_take, strLength_data, md5Hex_length]
  decide

/-- The dict built by `generate_base_map_cache_key` reads the settings only
through the `colors` and `borders` entries. -/
theorem baseMapSettings_congr {s1 s2 : JObj}
    (hc : s1.lookup "colors" = s2.lookup "colors")
    (hb : s1.lookup "borders" = s2.lookup "borders") :
    baseMapSettings s1 = baseMapSettings s2 := by
  unfold baseMapSettings
  rw [hc, hb]

/-- The settings suffix of the base-map key is likewise determined by the
`colors` and `borders` entries alone: the truthiness test on the whole
settings dict cannot distinguish the two maps because a settings dict whose
`colors` and `borders` are both absent always yields `"default"`. -/
theorem baseSettingsSuffix_congr {s1 s2 : JObj}
    (hc : s1.lookup "colors" = s2.lookup "colors")
    (hb : s1.lookup "borders" = s2.lookup "borders") :
    baseSettingsSuffix s1 = baseSettingsSuffix s2 := by
  have hbms := baseMapSettings_congr hc hb
  unfold baseSettingsSuffix
  cases s1 with
  | nil =>
    cases s2 with
    | nil => rfl
    | cons k v tl =>
      have h2 : baseMapSettings (JObj.cons k v tl) = JObj.nil := by
        rw [← hbms]
        rfl
      simp [JObj.isEmpty, h2]
  | cons k1 v1 tl1 =>
    cases s2 with
    | nil =>
      have h1 : baseMapSettings (JObj.cons k1 v1 tl1) = JObj.nil := by
        rw [hbms]
        rfl
      simp [JObj.isEmpty, h1]
    | cons k2 v2 tl2 =>
      simp only [JObj.isEmpty, hbms]

/-- C1 (amended).  The base-map cache key ignores the pin set and the pin
settings entirely: two maps whose `colors` and `borders` settings entries
agree — no matter how their pins or `settings['pins']` differ — produce the
identical key.  And for fixed region and dimensions, two keys are equal
exactly when the settings suffixes (the truncated MD5 digest of the
serialized base-map settings, or `"default"`) are equal; different color
settings therefore give different keys precisely when their 8-hex-character
digests differ, which the 32-bit truncation cannot guarantee in general. -/
theorem c1_base_map_key_ignores_pins_and_is_digest_determined
    (m1 m2 : Maps) (g1 g2 region : String) (w h : Nat) :
    ((getGuild m1 g1).settings.lookup "colors" =
        (getGuild m2 g2).settings.lookup "colors" →
     (getGuild m1 g1).settings.lookup "borders" =
        (getGuild m2 g2).settings.lookup "borders" →
     generateBaseMapCacheKey m1 g1 region w h =
        generateBaseMapCacheKey m2 g2 region w h) ∧
    (generateBaseMapCacheKey m1 g1 region w h =
        generateBaseMapCacheKey m2 g2 region w h ↔
     baseSettingsSuffix (getGuild m1 g1).settings =
        baseSettingsSuffix (getGuild m2 g2).settings) := by
  constructor
  · intro hc hb
    unfold generateBaseMapCacheKey
    rw [baseSettingsSuffix_congr hc hb]
  · unfold generateBaseMapCacheKey
    constructor
    · intro hkey
      exact strAppend_left_cancel.mp hkey
    · intro hs
      rw [hs]

/-- First witness map: pin settings and one pin. -/
def c1wMapsA : Maps :=
  [("1", ⟨toJObj [("pins", JVal.objL [("color", JVal.str "#ff4444"),
                    ("size", JVal.num "16")])],
    [("7", ⟨"52.0", "13.0"⟩)]⟩)]

/-- Second witness map: different pin settings, no pins at all. -/
def c1wMapsB : Maps :=
  [("1", ⟨toJObj [("pins", JVal.objL [("color", JVal.str "#00ff00"),
                    ("size", JVal.num "24")])], []⟩)]

theorem c1_witness :
    generateBaseMapCacheKey c1wMapsA "1" "germany" 1500 1203 =
      generateBaseMapCacheKey c1wMapsB "1" "germany" 1500 1203 :=
  (c1_base_map_key_ignores_pins_and_is_digest_determined
    c1wMapsA c1wMapsB "1" "1" "germany" 1500 1203).1 rfl rfl

/-- Color settings `land = "#001e50"`. -/
def c1MapsA : Maps :=
  [("1", ⟨toJObj [("colors", JVal.objL [("land", JVal.str "#001e50")])], []⟩)]

/-- Color settings `land = "#00943f"`: a different color whose serialized
base-map settings happen to share the truncated digest `"66767200"`. -/
def c1MapsB : Maps :=
  [("1", ⟨toJObj [("colors", JVal.objL [("land", JVal.str "#00943f")])], []⟩)]

/-- C1 counterexample: two maps that differ in their color settings yet
receive the identical base-map cache key, because the 8-hex-character MD5
truncation collides on their serialized settings. -/
theorem c1_counterexample :
    (getGuild c1MapsA "1").settings.lookup "colors" ≠
      (getGuild c1MapsB "1").settings.lookup "colors" ∧
    generateBaseMapCacheKey c1MapsA "1" "germany" 1500 1200 =
      generateBaseMapCacheKey c1MapsB "1" "germany" 1500 1200 := by
  constructor
  · intro h
    have h1 : (getGuild c1MapsA "1").settings.lookup "colors" =
        some (JVal.obj (JObj.cons "land" (JVal.str "#001e50") JObj.nil)) := rfl
    have h2 : (getGuild c1MapsB "1").settings.lookup "colors" =
        some (JVal.obj (JObj.cons "land" (JVal.str "#00943f") JObj.nil)) := rfl
    rw [h1, h2] at h
    simp at h
  · decide

/-- C8 (amended).  For a fixed region the final-map cache key determines and
is determined by the pair of truncated digests it embeds: the pin-position
digest and the visual-settings digest.  In particular moving one pin changes
the key exactly when it changes the 8-hex-character pin digest — which a
nonzero coordinate change almost always, but not provably always, does,
since the 32-bit truncated MD5 admits collisions. -/
theorem c8_final_map_key_digest_determined
    (m1 m2 : Maps) (g1 g2 region : String) :
    generateFinalMapCacheKey m1 g1 region = generateFinalMapCacheKey m2 g2 region ↔
      (pinHash (getGuild m1 g1).pins = pinHash (getGuild m2 g2).pins ∧
       generateSettingsHash m1 g1 = generateSettingsHash m2 g2) := by
  unfold generateFinalMapCacheKey
  constructor
  · intro h
    have hd := congrArg String.data h
    simp only [strData_append, List.append_assoc] at hd
    have hd1 := List.append_cancel_left hd
    have hd2 := List.append_cancel_left hd1
    have hd3 := List.append_cancel_left hd2
    have hlen : (pinHash (getGuild m1 g1).pins).data.length =
        (pinHash (getGuild m2 g2).pins).data.length := by
      unfold pinHash
      rw [md5Hex8_length, md5Hex8_length]
    obtain ⟨hph, hrest⟩ := List.append_inj hd3 hlen
    have hsh := List.append_cancel_left hrest
    exact ⟨strEq_of_data hph, strEq_of_data hsh⟩
  · intro h
    rw [h.1, h.2]

/-- Guild with one pin at latitude `-33.91`, longitude `13.405`. -/
def c8MapsA : Maps := [("1", ⟨.nil, [("1", ⟨"-33.91", "13.405"⟩)]⟩)]

/-- The same guild after the pin's latitude moved to `-33.361` (longitude
unchanged): the serialized positions collide on the truncated digest. -/
def c8MapsB : Maps := [("1", ⟨.nil, [("1", ⟨"-33.361", "13.405"⟩)]⟩)]

example : jdumps (pinData (getGuild c8MapsA "1").pins) =
    "\x7b\"1\": [-33.91, 13.405]\x7d" := by decide

example : jdumps (pinData (getGuild c8MapsB "1").pins) =
    "\x7b\"1\": [-33.361, 13.405]\x7d" := by decide

/-- C8 counterexample: one pin's latitude changes by a nonzero amount (its
longitude and everything else held fixed) yet the final-map cache key is
unchanged, because the truncated pin digest collides (`"eddfdd3a"`). -/
theorem c8_counterexample :
    ((getGuild c8MapsA "1").pins.lookup "1").map Pin.lat ≠
      ((getGuild c8MapsB "1").pins.lookup "1").map Pin.lat ∧
    ((getGuild c8MapsA "1").pins.lookup "1").map Pin.lng =
      ((getGuild c8MapsB "1").pins.lookup "1").map Pin.lng ∧
    generateFinalMapCacheKey c8MapsA "1" "world" =
      generateFinalMapCacheKey c8MapsB "1" "world" := by
  refine ⟨by decide, by decide, by decide⟩

/-! Write scope of the cache (C7, C10). -/

/-- A disk artifact: the directory it lives in and its file name. -/
structure FileRef where
  dir : CacheDir
  name : String
  deriving DecidableEq

/-- The four artifact kinds of `generate_cache_key`. -/
inductive CacheType where
  | base_map
  | closeup_base_map
  | final_map
  | closeup
  deriving DecidableEq

/-- The keyword parameters of `generate_cache_key`; each branch reads only
the parameters that exist for its artifact kind. -/
structure KeyParams where
  region : String
  width : Nat
  height : Nat
  closeupType : String
  closeupName : String
  deriving DecidableEq

/-- `UnifiedCacheManager.generate_cache_key`.  The `base_map` branch defers
to `generate_base_map_cache_key`; the `closeup_base_map` branch repeats the
base-map settings construction verbatim (the source duplicates the code);
the `final_map` and `closeup` branches append the pin digest and then the
full visual-settings digest. -/
def generateCacheKey (maps : Maps) (t : CacheType) (g : String) (p : KeyParams) : String :=
  match t with
  | .base_map => generateBaseMapCacheKey maps g p.region p.width p.height
  | .closeup_base_map =>
      "closeup_base_map_" ++ p.closeupType ++ "_" ++ p.closeupName ++ "_" ++
        toString p.width ++ "_" ++ toString p.height ++ "_" ++
        baseSettingsSuffix (getGuild maps g).settings
  | .final_map => generateFinalMapCacheKey maps g p.region
  | .closeup =>
      "closeup_" ++ p.closeupType ++ "_" ++ p.closeupName ++ "_" ++
        pinHash (getGuild maps g).pins ++ "_" ++ generateSettingsHash maps g

/-- `UnifiedCacheManager.cache_item`, modelled by the disk artifact it
writes: the key is generated, the directory chosen once by
`_get_cache_location`, and the file `{key}.png` written there (the
memory-tier side effect for base maps is modelled with the LRU cache
below). -/
def cacheItemFile (maps : Maps) (t : CacheType) (g : String) (p : KeyParams) : FileRef :=
  ⟨getCacheLocation maps g, generateCacheKey maps t g p ++ ".png"⟩

/-- `MapStorage.cache_base_map`, modelled by the disk artifact it writes. -/
def cacheBaseMapFile (maps : Maps) (g region : String) (w h : Nat) : FileRef :=
  ⟨getCacheLocation maps g, generateBaseMapCacheKey maps g region w h ++ ".png"⟩

/-- `MapStorage.get_cached_base_map`, modelled by the disk artifact it
consults on a memory miss (the source recomputes key and location exactly
as the write path does). -/
def getCachedBaseMapFile (maps : Maps) (g region : String) (w h : Nat) : FileRef :=
  ⟨getCacheLocation maps g, generateBaseMapCacheKey maps g region w h ++ ".png"⟩

/-- C7: whenever the owning guild has custom settings (a non-empty settings
dict), every cache write — `cache_item` for any artifact kind and
`cache_base_map` — targets that guild's own directory, never the shared
cache directory. -/
theorem c7_custom_settings_written_owner_scoped
    (maps : Maps) (t : CacheType) (g : String) (p : KeyParams)
    (hne : (getGuild maps g).settings.isEmpty = false) :
    (cacheItemFile maps t g p).dir = CacheDir.guild g ∧
    (cacheBaseMapFile maps g p.region p.width p.height).dir = CacheDir.guild g ∧
    (cacheItemFile maps t g p).dir ≠ CacheDir.shared := by
  have hcs : hasCustomSettings maps g = true := by
    unfold hasCustomSettings
    rw [hne]
    rfl
  refine ⟨?_, ?_, ?_⟩
  · simp [cacheItemFile, getCacheLocation, hcs]
  · simp [cacheBaseMapFile, getCacheLocation, hcs]
  · simp [cacheItemFile, getCacheLocation, hcs]

/-- A guild whose settings dict holds custom colors. -/
def c7wMaps : Maps :=
  [("9", ⟨toJObj [("colors", JVal.objL [("water", JVal.str "#0000ff")])], []⟩)]

theorem c7_witness :
    (cacheItemFile c7wMaps CacheType.final_map "9"
      ⟨"world", 0, 0, "", ""⟩).dir = CacheDir.guild "9" :=
  (c7_custom_settings_written_owner_scoped c7wMaps CacheType.final_map "9"
    ⟨"world", 0, 0, "", ""⟩ rfl).1

/-- C10: any non-empty settings dict — including one holding only pin
settings, which do not enter the base-map key — makes scope resolution pick
the guild directory for both the base-map read and the base-map write; and
when neither `colors` nor `borders` is present the key still carries the
`"default"` settings suffix, so such an owner-scoped base map coexists with
the shared default one without ever touching the shared directory. -/
theorem c10_nonempty_settings_base_map_owner_scoped
    (maps : Maps) (g region : String) (w h : Nat)
    (hne : (getGuild maps g).settings.isEmpty = false) :
    (getCachedBaseMapFile maps g region w h).dir = CacheDir.guild g ∧
    (cacheBaseMapFile maps g region w h).dir = CacheDir.guild g ∧
    ((getGuild maps g).settings.lookup "colors" = none →
     (getGuild maps g).settings.lookup "borders" = none →
     generateBaseMapCacheKey maps g region w h =
       "base_map_" ++ region ++ "_" ++ toString w ++ "_" ++ toString h ++
         "_" ++ "default") := by
  have hcs : hasCustomSettings maps g = true := by
    unfold hasCustomSettings
    rw [hne]
    rfl
  refine ⟨?_, ?_, ?_⟩
  · simp [getCachedBaseMapFile, getCacheLocation, hcs]
  · simp [cacheBaseMapFile, getCacheLocation, hcs]
  · intro hc hb
    unfold generateBaseMapCacheKey baseSettingsSuffix
    have hbms : baseMapSettings (getGuild maps g).settings = JObj.nil := by
      unfold baseMapSettings
      rw [hc, hb]
    rw [hne, hbms]
    rfl

/-! Pin-change invalidation (C2). -/

/-- A cached artifact on disk: the directory it lives in, its file name,
and — as ghost information for ownership statements only — the guild whose
render produced it.  The source operates on directory and name alone. -/
structure CacheFile where
  dir : CacheDir
  name : String
  owner : String
  deriving DecidableEq

/-- Matching of a `glob` pattern of the shape `pre*suf` (as in
`glob("final_map_*.png")`): the name decomposes as `pre ++ mid ++ suf`. -/
def globMatch (pre suf name : String) : Bool :=
  (pre.data.length + suf.data.length ≤ name.data.length) &&
    (name.data.take pre.data.length == pre.data) &&
    (name.data.drop (name.data.length - suf.data.length) == suf.data)

/-- `MapStorage.invalidate_final_map_cache_only`: unlink every
`final_map_*.png` in the shared cache directory (regardless of who cached
it), then every `final_map_*.png` in the given guild's own directory;
nothing else is removed and the memory tier is left untouched. -/
def invalidateFinalMapCacheOnly (g : String) (fs : List CacheFile) : List CacheFile :=
  fs.filter (fun f => !(globMatch "final_map_" ".png" f.name &&
    (f.dir == CacheDir.shared || f.dir == CacheDir.guild g)))

/-- C2 (amended).  A pin add/move/remove triggers exactly
`invalidate_final_map_cache_only` (cog pin handler): it deletes every
`final_map` artifact in the shared directory — including artifacts cached
by other owners — and those in the acting guild's directory; every file not
named `final_map_*.png` (in particular all `base_map`, `closeup_base_map`
and `closeup` artifacts) survives, as does every file in another guild's
directory. -/
theorem c2_pin_change_invalidation
    (g : String) (fs : List CacheFile) (f : CacheFile) (hf : f ∈ fs) :
    (globMatch "final_map_" ".png" f.name = false →
      f ∈ invalidateFinalMapCacheOnly g fs) ∧
    (∀ g₂, f.dir = CacheDir.guild g₂ → g₂ ≠ g →
      f ∈ invalidateFinalMapCacheOnly g fs) ∧
    (globMatch "final_map_" ".png" f.name = true → f.dir = CacheDir.shared →
      f ∉ invalidateFinalMapCacheOnly g fs) ∧
    (globMatch "final_map_" ".png" f.name = true → f.dir = CacheDir.guild g →
      f ∉ invalidateFinalMapCacheOnly g fs) := by
  refine ⟨?_, ?_, ?_, ?_⟩
  · intro hn
    unfold invalidateFinalMapCacheOnly
    rw [List.mem_filter]
    exact ⟨hf, by simp [hn]⟩
  · intro g₂ hdir hne
    unfold invalidateFinalMapCacheOnly
    rw [List.mem_filter]
    refine ⟨hf, ?_⟩
    simp only [hdir]
    simp [hne]
  · intro hn hdir
    unfold invalidateFinalMapCacheOnly
    rw [List.mem_filter]
    intro hmem
    simp [hn, hdir] at hmem
  · intro hn hdir
    unfold invalidateFinalMapCacheOnly
    rw [List.mem_filter]
    intro hmem
    simp [hn, hdir] at hmem

/-- A final map cached in the shared directory by guild 2 (a guild without
custom settings caches its final map in the shared scope). -/
def c2SharedOther : CacheFile :=
  ⟨CacheDir.shared, "final_map_world_11111111_default.png", "2"⟩

/-- A closeup cached by guild 1 in its own directory. -/
def c2OwnCloseup : CacheFile :=
  ⟨CacheDir.guild "1", "closeup_state_Bayern_22222222_default.png", "1"⟩

/-- C2 counterexample: after a pin change in guild 1, the invalidation
deletes the shared final map that belongs to guild 2 (the claim says other
owners' artifacts are left unchanged) and leaves guild 1's closeup artifact
in place (the claim says the owner's closeup artifacts are deleted). -/
theorem c2_counterexample :
    c2SharedOther.owner ≠ "1" ∧
    invalidateFinalMapCacheOnly "1" [c2SharedOther, c2OwnCloseup] =
      [c2OwnCloseup] := by
  refine ⟨by decide, by decide⟩

/-- Concrete file set for the C2 witness. -/
def c2wFiles : List CacheFile :=
  [⟨CacheDir.guild "1", "base_map_germany_1500_1200_default.png", "1"⟩,
   ⟨CacheDir.guild "1", "final_map_germany_33333333_default.png", "1"⟩,
   ⟨CacheDir.guild "3", "final_map_europe_44444444_55555555.png", "3"⟩]

theorem c2_witness :
    (c2wFiles.get ⟨0, by decide⟩ ∈ invalidateFinalMapCacheOnly "1" c2wFiles) ∧
    (c2wFiles.get ⟨2, by decide⟩ ∈ invalidateFinalMapCacheOnly "1" c2wFiles) ∧
    (c2wFiles.get ⟨1, by decide⟩ ∉ invalidateFinalMapCacheOnly "1" c2wFiles) :=
  ⟨(c2_pin_change_invalidation "1" c2wFiles _ (by decide)).1 (by decide),
   (c2_pin_change_invalidation "1" c2wFiles _ (by decide)).2.1 "3" rfl (by decide),
   (c2_pin_change_invalidation "1" c2wFiles _ (by decide)).2.2.2 (by decide) rfl⟩

/-- A guild whose settings dict holds only pin settings. -/
def c10wMaps : Maps :=
  [("5", ⟨toJObj [("pins", JVal.objL [("size", JVal.num "24")])], []⟩)]

theorem c10_witness :
    (getCachedBaseMapFile c10wMaps "5" "europe" 1500 900).dir = CacheDir.guild "5" ∧
    generateBaseMapCacheKey c10wMaps "5" "europe" 1500 900 =
      "base_map_" ++ "europe" ++ "_" ++ toString 1500 ++ "_" ++ toString 900 ++
        "_" ++ "default" :=
  ⟨(c10_nonempty_settings_base_map_owner_scoped c10wMaps "5" "europe" 1500 900 rfl).1,
   (c10_nonempty_settings_base_map_owner_scoped c10wMaps "5" "europe" 1500 900 rfl).2.2
     rfl rfl⟩

/-! The in-memory LRU (`core/cache_manager.py`, class `LRUCache`; C5). -/

/-- The memory tier: the `OrderedDict` is modelled as an ordered association
list whose head is the least recently used binding and whose tail end is the
most recent.  Every entry carries its value and its last-access time exactly
as in the source (the time is stored and refreshed but never read by the
eviction logic, which uses the dict order). -/
structure LRUCache (α : Type) where
  maxItems : Nat
  cache : List (String × α × Nat)

/-- Dict membership / item access, first binding wins (keys are unique in
any state reachable from an empty cache). -/
def lookupKV : List (String × α × Nat) → String → Option α
  | [], _ => none
  | (k', v, _) :: tl, k => if k == k' then some v else lookupKV tl k

/-- Removal of a key's binding (`pop` / deletion; removes every binding of
the key, which on unique-key states is the one binding). -/
def eraseKey (k : String) (l : List (String × α × Nat)) : List (String × α × Nat) :=
  l.filter (fun e => e.1 != k)

/-- The `while len(self.cache) > self.max_items:` eviction loop of `set`,
popping the least recently used entry (the source also unlinks a backing
file when the evicted value is a path; that side effect has no bearing on
the cache state and is not modelled). -/
def evict (max : Nat) : List (String × α × Nat) → List (String × α × Nat)
  | [] => []
  | e :: tl => if tl.length + 1 ≤ max then e :: tl else evict max tl

/-- `LRUCache.get`: on a hit, move the binding to the most-recent end and
refresh its access time; on a miss leave the cache unchanged.  The returned
value is `lookupKV c.cache k`. -/
def getOp (c : LRUCache α) (k : String) (t : Nat) : LRUCache α :=
  match lookupKV c.cache k with
  | some v => ⟨c.maxItems, eraseKey k c.cache ++ [(k, v, t)]⟩
  | none => c

/-- `LRUCache.set`: update-and-promote an existing key, or append a new
binding and run the eviction loop. -/
def setOp (c : LRUCache α) (k : String) (v : α) (t : Nat) : LRUCache α :=
  match lookupKV c.cache k with
  | some _ => ⟨c.maxItems, eraseKey k c.cache ++ [(k, v, t)]⟩
  | none => ⟨c.maxItems, evict c.maxItems (c.cache ++ [(k, v, t)])⟩

/-- `LRUCache.remove`. -/
def removeOp (c : LRUCache α) (k : String) : LRUCache α :=
  ⟨c.maxItems, eraseKey k c.cache⟩

/-- One cache operation. -/
inductive CacheOp (α : Type) where
  | get (k : String) (t : Nat)
  | set (k : String) (v : α) (t : Nat)
  | remove (k : String)

/-- Application of one operation. -/
def applyOp (c : LRUCache α) : CacheOp α → LRUCache α
  | .get k t => getOp c k t
  | .set k v t => setOp c k v t
  | .remove k => removeOp c k

/-- Application of a sequence of operations. -/
def applyOps (c : LRUCache α) (ops : List (CacheOp α)) : LRUCache α :=
  ops.foldl applyOp c

/-- A freshly constructed cache of capacity `max`. -/
def emptyCache (α : Type) (max : Nat) : LRUCache α := ⟨max, []⟩

theorem evict_length_le (max : Nat) (l : List (String × α × Nat)) :
    (evict max l).length ≤ max := by
  induction l with
  | nil => simp [evict]
  | cons e tl ih =>
    unfold evict
    by_cases h : tl.length + 1 ≤ max
    · simp [h]
    · simpa [h] using ih

theorem evict_of_length_le {max : Nat} {l : List (String × α × Nat)}
    (h : l.length ≤ max) : evict max l = l := by
  cases l with
  | nil => rfl
  | cons e tl => simp only [evict, List.length_cons] at h ⊢; simp [h]

theorem evict_of_length_succ {max : Nat} {l : List (String × α × Nat)}
    (h : l.length = max + 1) : evict max l = l.tail := by
  cases l with
  | nil => simp at h
  | cons e tl =>
    simp only [List.length_cons, Nat.add_right_cancel_iff] at h
    unfold evict
    have hlt : ¬ tl.length + 1 ≤ max := by omega
    simp only [hlt, if_false]
    exact evict_of_length_le (by omega)

theorem eraseKey_length_le (k : String) (l : List (String × α × Nat)) :
    (eraseKey k l).length ≤ l.length :=
  List.length_filter_le _ _

theorem eraseKey_length_lt {k : String} {l : List (String × α × Nat)}
    (h : (lookupKV l k).isSome) : (eraseKey k l).length < l.length := by
  induction l with
  | nil => simp [lookupKV] at h
  | cons e tl ih =>
    obtain ⟨k', v, t⟩ := e
    by_cases hk : k == k'
    · simp only [eraseKey, List.filter_cons]
      have : ((k', v, t).1 != k) = false := by
        simp only [bne, Bool.not_eq_true']
        simpa [BEq.comm] using hk
      rw [this]
      calc (eraseKey k tl).length ≤ tl.length := eraseKey_length_le k tl
        _ < (( k', v, t) :: tl).length := by simp
    · have hmem : (lookupKV tl k).isSome := by
        simpa [lookupKV, hk] using h
      simp only [eraseKey, List.filter_cons]
      have : ((k', v, t).1 != k) = true := by
        simp only [bne, Bool.not_eq_false']
        simpa [BEq.comm] using hk
      rw [this]
      simpa using ih hmem

theorem eraseKey_of_not_mem {k : String} {l : List (String × α × Nat)}
    (h : k ∉ l.map (fun e => e.1)) : eraseKey k l = l := by
  induction l with
  | nil => rfl
  | cons e tl ih =>
    simp only [List.map_cons, List.mem_cons, not_or] at h
    have hbeq : (e.1 == k) = false := beq_false_of_ne (fun hh => h.1 hh.symm)
    simp only [eraseKey, List.filter_cons, bne, hbeq, Bool.not_false, if_true]
    exact congrArg (e :: ·) (ih h.2)

theorem lookupKV_append_single_none {l : List (String × α × Nat)}
    {q k : String} {v : α} {t : Nat}
    (h1 : lookupKV l q = none) (h2 : (q == k) = false) :
    lookupKV (l ++ [(k, v, t)]) q = none := by
  induction l with
  | nil => simp [lookupKV, h2]
  | cons e tl ih =>
    obtain ⟨ke, ve, te⟩ := e
    simp only [lookupKV] at h1
    by_cases hq : (q == ke) = true
    · rw [if_pos hq] at h1
      cases h1
    · rw [if_neg hq] at h1
      simp only [List.cons_append, lookupKV]
      rw [if_neg hq]
      exact ih h1

theorem applyOp_maxItems (c : LRUCache α) (op : CacheOp α) :
    (applyOp c op).maxItems = c.maxItems := by
  cases op with
  | get k t =>
    simp only [applyOp, getOp]
    cases lookupKV c.cache k <;> rfl
  | set k v t =>
    simp only [applyOp, setOp]
    cases lookupKV c.cache k <;> rfl
  | remove k => rfl

theorem applyOp_length_le (c : LRUCache α) (op : CacheOp α)
    (h : c.cache.length ≤ c.maxItems) :
    (applyOp c op).cache.length ≤ c.maxItems := by
  cases op with
  | get k t =>
    simp only [applyOp, getOp]
    cases hk : lookupKV c.cache k with
    | none => exact h
    | some v =>
      simp only [List.length_append, List.length_cons, List.length_nil]
      have := eraseKey_length_lt (l := c.cache) (k := k) (by rw [hk]; rfl)
      omega
  | set k v t =>
    simp only [applyOp, setOp]
    cases hk : lookupKV c.cache k with
    | none => exact evict_length_le _ _
    | some v₀ =>
      simp only [List.length_append, List.length_cons, List.length_nil]
      have := eraseKey_length_lt (l := c.cache) (k := k) (by rw [hk]; rfl)
      omega
  | remove k =>
    exact le_trans (eraseKey_length_le _ _) h

theorem applyOps_maxItems (ops : List (CacheOp α)) (c : LRUCache α) :
    (applyOps c ops).maxItems = c.maxItems := by
  induction ops generalizing c with
  | nil => rfl
  | cons op ops ih =>
    simp only [applyOps, List.foldl_cons]
    rw [show List.foldl applyOp (applyOp c op) ops =
        applyOps (applyOp c op) ops from rfl]
    rw [ih (applyOp c op), applyOp_maxItems]

theorem applyOps_length_le (ops : List (CacheOp α)) (c : LRUCache α)
    (h : c.cache.length ≤ c.maxItems) :
    (applyOps c ops).cache.length ≤ (applyOps c ops).maxItems := by
  induction ops generalizing c with
  | nil => exact h
  | cons op ops ih =>
    simp only [applyOps, List.foldl_cons]
    exact ih (applyOp c op) (by rw [applyOp_maxItems]; exact applyOp_length_le c op h)

/-- C5: (1) starting from an empty cache of capacity `N`, no sequence of
get/set/remove operations ever leaves more than `N` entries; (2) a `set` of
a fresh key into a cache already holding `N = maxItems` entries evicts
exactly the least-recently-used entry (the head of the order) and appends
the new binding as most recent; (3) a `get` on the least-recently-used key
promotes it to most recent, so the next over-capacity insertion evicts
what was the second-oldest entry while the promoted key survives — whereas
without the `get` that insertion would have evicted the promoted key
itself. -/
theorem c5_lru_capacity_eviction_promotion (α : Type) (N : Nat) :
    (∀ ops : List (CacheOp α),
      (applyOps (emptyCache α N) ops).cache.length ≤ N) ∧
    (∀ (c : LRUCache α) (k : String) (v : α) (t : Nat),
      0 < N → c.maxItems = N → c.cache.length = N → lookupKV c.cache k = none →
      (setOp c k v t).cache = c.cache.tail ++ [(k, v, t)]) ∧
    (∀ (c : LRUCache α) (k k' : String) (v v' : α) (t₀ t t' : Nat)
        (e₂ : String × α × Nat) (rest : List (String × α × Nat)),
      c.cache = (k, v, t₀) :: e₂ :: rest →
      k ∉ (e₂ :: rest).map (fun e => e.1) →
      lookupKV c.cache k' = none →
      c.cache.length = c.maxItems →
      (getOp c k t).cache = e₂ :: rest ++ [(k, v, t)] ∧
      (setOp (getOp c k t) k' v' t').cache =
        rest ++ [(k, v, t), (k', v', t')] ∧
      (setOp c k' v' t').cache = e₂ :: rest ++ [(k', v', t')]) := by
  refine ⟨?_, ?_, ?_⟩
  · intro ops
    have h := applyOps_length_le ops (emptyCache α N) (by simp [emptyCache])
    rw [applyOps_maxItems] at h
    exact h
  · intro c k v t hpos hmax hlen hfresh
    simp only [setOp, hfresh]
    have hlen1 : (c.cache ++ [(k, v, t)]).length = c.maxItems + 1 := by
      simp [List.length_append, hlen, hmax]
    rw [evict_of_length_succ hlen1]
    cases hc : c.cache with
    | nil =>
      exfalso
      rw [hc] at hlen
      have : N = 0 := by simpa using hlen.symm
      omega
    | cons e tl => simp
  · intro c k k' v v' t₀ t t' e₂ rest hc hknot hk' hfull
    have hget : (getOp c k t).cache = e₂ :: rest ++ [(k, v, t)] := by
      simp only [getOp, hc, lookupKV]
      simp only [beq_self_eq_true, if_true]
      rw [show eraseKey k ((k, v, t₀) :: e₂ :: rest) =
          eraseKey k (e₂ :: rest) from by simp [eraseKey, List.filter_cons]]
      rw [eraseKey_of_not_mem hknot]
    refine ⟨hget, ?_, ?_⟩
    · have hkk' : k' ≠ k := by
        intro he
        rw [he, hc] at hk'
        simp [lookupKV] at hk'
      have hfresh : lookupKV (getOp c k t).cache k' = none := by
        rw [hget]
        have h1 : lookupKV (e₂ :: rest) k' = none := by
          rw [hc] at hk'
          simp only [lookupKV] at hk'
          split at hk'
          · exact absurd hk' (by simp)
          · exact hk'
        exact lookupKV_append_single_none h1 (beq_false_of_ne hkk')
      simp only [setOp, hfresh]
      have hmax : (getOp c k t).maxItems = c.maxItems := by
        simp only [getOp]
        cases lookupKV c.cache k <;> rfl
      have hlen2 : ((getOp c k t).cache ++ [(k', v', t')]).length =
          (getOp c k t).maxItems + 1 := by
        rw [hget, hmax, ← hfull, hc]
        simp
      rw [evict_of_length_succ hlen2, hget]
      simp
    · simp only [setOp, hk']
      have hlen3 : (c.cache ++ [(k', v', t')]).length = c.maxItems + 1 := by
        rw [← hfull]
        simp
      rw [evict_of_length_succ hlen3, hc]
      simp

theorem c5_witness :
    (applyOps (emptyCache Nat 2) [CacheOp.set "a" 1 0, CacheOp.set "b" 2 1,
       CacheOp.get "a" 2, CacheOp.set "c" 3 3]).cache.length ≤ 2 ∧
    (setOp (⟨2, [("a", 1, 0), ("b", 2, 1)]⟩ : LRUCache Nat) "c" 3 5).cache =
      [("b", 2, 1), ("c", 3, 5)] ∧
    (setOp (getOp (⟨2, [("a", 1, 0), ("b", 2, 1)]⟩ : LRUCache Nat) "a" 2)
        "c" 3 5).cache = [("a", 1, 2), ("c", 3, 5)] :=
  ⟨(c5_lru_capacity_eviction_promotion Nat 2).1 _,
   by
     have h := (c5_lru_capacity_eviction_promotion Nat 2).2.1
       ⟨2, [("a", 1, 0), ("b", 2, 1)]⟩ "c" 3 5 (by decide) rfl rfl rfl
     simpa using h,
   by
     have h := (c5_lru_capacity_eviction_promotion Nat 2).2.2
       ⟨2, [("a", 1, 0), ("b", 2, 1)]⟩ "a" "c" 1 3 0 2 5 ("b", 2, 1) []
       rfl (by decide) rfl rfl
     simpa using h.2.1⟩

/-! Disk-tier cleanup (`core/cache_manager.py`, `ManagedFileCache`; C6). -/

/-- One file of the disk tier: its path, last-access time (`st_atime`) and
size in bytes. -/
structure DiskFile where
  path : String
  atime : Nat
  size : Nat
  deriving DecidableEq

/-- `get_cache_size`: the sum of all file sizes. -/
def totalSize (fs : List DiskFile) : Nat := (fs.map (fun f => f.size)).sum

/-- `files_with_times.sort(key=lambda x: x[1])`: Python's stable sort by
access time, oldest first. -/
def sortByAtime (fs : List DiskFile) : List DiskFile :=
  sortLe (fun a b => decide (a.atime ≤ b.atime)) fs

/-- The deletion loop of `cleanup_if_needed`: unlink the files oldest
first, subtracting each size from the running total, and break as soon as
the running total is at most 80% of the limit.  The source compares the
integer running size against the float `max_size_bytes * 0.8`; the
comparison is modelled exactly over the rationals as
`5 * current ≤ 4 * max`.  Deletions are assumed to succeed (the claim
assumes the same).  The returned list holds the surviving files. -/
def deleteLoop (max : Nat) : List DiskFile → Nat → List DiskFile
  | [], _ => []
  | f :: tl, current =>
      if 5 * (current - f.size) ≤ 4 * max then tl
      else deleteLoop max tl (current - f.size)

/-- `ManagedFileCache.cleanup_if_needed`: a no-op at or below
`max_size_bytes`; above it, the atime-sorted deletion loop runs on the
full listing. -/
def cleanupIfNeeded (max : Nat) (fs : List DiskFile) : List DiskFile :=
  if totalSize fs ≤ max then fs
  else deleteLoop max (sortByAtime fs) (totalSize fs)

theorem insertLe_perm (le : α → α → Bool) (a : α) (l : List α) :
    List.Perm (insertLe le a l) (a :: l) := by
  induction l with
  | nil => exact List.Perm.refl _
  | cons x xs ih =>
    unfold insertLe
    by_cases h : le a x
    · simp only [h, if_true]
      exact List.Perm.refl _
    · simp only [h, if_false]
      exact List.Perm.trans (List.Perm.cons x ih) (List.Perm.swap a x xs)

theorem sortLe_perm (le : α → α → Bool) (l : List α) :
    List.Perm (sortLe le l) l := by
  induction l with
  | nil => exact List.Perm.refl _
  | cons x xs ih =>
    exact List.Perm.trans (insertLe_perm le x (sortLe le xs)) (List.Perm.cons x ih)

theorem insertLe_pairwise {R : α → α → Prop} {le : α → α → Bool}
    (hle : ∀ x y, le x y = true → R x y)
    (hgt : ∀ x y, le x y = false → R y x)
    (htr : ∀ x y z, R x y → R y z → R x z)
    (a : α) (l : List α) (hl : l.Pairwise R) :
    (insertLe le a l).Pairwise R := by
  induction l with
  | nil => simp [insertLe]
  | cons x xs ih =>
    rw [List.pairwise_cons] at hl
    unfold insertLe
    by_cases h : le a x = true
    · rw [if_pos h]
      rw [List.pairwise_cons]
      refine ⟨?_, List.pairwise_cons.mpr hl⟩
      intro b hb
      rcases List.mem_cons.mp hb with hbx | hbxs
      · rw [hbx]
        exact hle a x h
      · exact htr a x b (hle a x h) (hl.1 b hbxs)
    · rw [if_neg h]
      rw [List.pairwise_cons]
      refine ⟨?_, ih hl.2⟩
      intro b hb
      rcases List.mem_cons.mp ((insertLe_perm le a xs).mem_iff.mp hb) with hba | hbxs
      · rw [hba]
        exact hgt a x (by simpa using h)
      · exact hl.1 b hbxs

theorem sortLe_pairwise {R : α → α → Prop} {le : α → α → Bool}
    (hle : ∀ x y, le x y = true → R x y)
    (hgt : ∀ x y, le x y = false → R y x)
    (htr : ∀ x y z, R x y → R y z → R x z)
    (l : List α) : (sortLe le l).Pairwise R := by
  induction l with
  | nil => exact List.Pairwise.nil
  | cons x xs ih => exact insertLe_pairwise hle hgt htr x (sortLe le xs) ih

/-- Behaviour of the deletion loop on any listing whose running total is at
most the listing's own total size: some positive prefix of the listing is
deleted, the loop stops the first time the running total reaches the 80%
threshold, and later files survive. -/
theorem deleteLoop_spec (max : Nat) :
    ∀ (s : List DiskFile) (current : Nat), s ≠ [] → current ≤ totalSize s →
    ∃ k, 1 ≤ k ∧ k ≤ s.length ∧
      deleteLoop max s current = s.drop k ∧
      5 * (current - totalSize (s.take k)) ≤ 4 * max ∧
      (∀ j, 1 ≤ j → j < k → 4 * max < 5 * (current - totalSize (s.take j))) := by
  intro s
  induction s with
  | nil =>
    intro current hne _
    exact absurd rfl hne
  | cons f tl ih =>
    intro current _ hcur
    by_cases hbrk : 5 * (current - f.size) ≤ 4 * max
    · refine ⟨1, le_refl 1, by simp, ?_, ?_, ?_⟩
      · simp [deleteLoop, hbrk]
      · simpa [totalSize] using hbrk
      · intro j hj1 hj
        omega
    · cases tl with
      | nil =>
        exfalso
        apply hbrk
        have h1 : current ≤ f.size := by simpa [totalSize] using hcur
        have h2 : current - f.size = 0 := by omega
        rw [h2]
        omega
      | cons f2 tl2 =>
        have hcur' : current - f.size ≤ totalSize (f2 :: tl2) := by
          simp only [totalSize, List.map_cons, List.sum_cons] at hcur ⊢
          omega
        obtain ⟨k', hk1, hklen, hdrop, hbound, hmin⟩ :=
          ih (current - f.size) (by simp) hcur'
        refine ⟨k' + 1, by omega, by simpa using Nat.succ_le_succ hklen, ?_, ?_, ?_⟩
        · have hstep : deleteLoop max (f :: f2 :: tl2) current =
              deleteLoop max (f2 :: tl2) (current - f.size) := by
            conv_lhs => rw [deleteLoop]
            rw [if_neg hbrk]
          rw [hstep, hdrop]
          rfl
        · have he : totalSize (List.take (k' + 1) (f :: f2 :: tl2)) =
              f.size + totalSize (List.take k' (f2 :: tl2)) := by
            simp [totalSize]
          rw [he]
          have h2 : current - (f.size + totalSize (List.take k' (f2 :: tl2))) =
              current - f.size - totalSize (List.take k' (f2 :: tl2)) := by
            omega
          rw [h2]
          exact hbound
        · intro j hj1 hjk
          match j, hj1 with
          | 1, _ =>
            have he : totalSize (List.take 1 (f :: f2 :: tl2)) = f.size := by
              simp [totalSize]
            rw [he]
            omega
          | (j'' + 2), _ =>
            have hmj := hmin (j'' + 1) (by omega) (by omega)
            have he : totalSize (List.take (j'' + 2) (f :: f2 :: tl2)) =
                f.size + totalSize (List.take (j'' + 1) (f2 :: tl2)) := by
              simp [totalSize]
            rw [he]
            omega

/-- C6: `cleanup_if_needed` deletes nothing when the total size is within
`max_size_bytes`; above the limit the survivors are exactly the
atime-sorted listing (a genuinely sorted permutation of the files) with
its first `k` entries removed, where `k` is the least positive count of
oldest-accessed files whose removal brings the remaining total to at most
80% of the limit. -/
theorem c6_cleanup_oldest_first_until_headroom (max : Nat) (fs : List DiskFile) :
    (totalSize fs ≤ max → cleanupIfNeeded max fs = fs) ∧
    (max < totalSize fs →
      (sortByAtime fs).Pairwise (fun a b => a.atime ≤ b.atime) ∧
      List.Perm (sortByAtime fs) fs ∧
      ∃ k, 1 ≤ k ∧ k ≤ (sortByAtime fs).length ∧
        cleanupIfNeeded max fs = (sortByAtime fs).drop k ∧
        5 * (totalSize fs - totalSize ((sortByAtime fs).take k)) ≤ 4 * max ∧
        (∀ j, 1 ≤ j → j < k →
          4 * max < 5 * (totalSize fs - totalSize ((sortByAtime fs).take j)))) := by
  constructor
  · intro hle
    simp [cleanupIfNeeded, hle]
  · intro hgt
    have hperm : List.Perm (sortByAtime fs) fs := sortLe_perm _ fs
    have hsorted := @sortLe_pairwise DiskFile (fun a b => a.atime ≤ b.atime)
      (fun a b => decide (a.atime ≤ b.atime))
      (fun x y hxy => of_decide_eq_true hxy)
      (fun x y hxy => le_of_lt (lt_of_not_le (of_decide_eq_false hxy)))
      (fun x y z h1 h2 => le_trans h1 h2) fs
    refine ⟨hsorted, hperm, ?_⟩
    have htot : totalSize (sortByAtime fs) = totalSize fs := by
      unfold totalSize
      exact List.Perm.sum_eq (List.Perm.map _ hperm)
    have hne : sortByAtime fs ≠ [] := by
      intro h0
      rw [h0] at htot
      rw [show totalSize ([] : List DiskFile) = 0 from rfl] at htot
      omega
    have hspec := deleteLoop_spec max (sortByAtime fs) (totalSize fs) hne (by rw [htot])
    have hcl : cleanupIfNeeded max fs = deleteLoop max (sortByAtime fs) (totalSize fs) := by
      unfold cleanupIfNeeded
      rw [if_neg (by omega)]
    rw [hcl]
    exact hspec

/-- Three cached files totalling 16 bytes; `"b"` has the oldest access
time, then `"c"`, then `"a"`. -/
def c6wFiles : List DiskFile := [⟨"a", 3, 6⟩, ⟨"b", 1, 6⟩, ⟨"c", 2, 4⟩]

example : cleanupIfNeeded 10 c6wFiles = [⟨"a", 3, 6⟩] := by decide

theorem c6_witness :
    cleanupIfNeeded 20 c6wFiles = c6wFiles ∧
    (∃ k, 1 ≤ k ∧ k ≤ (sortByAtime c6wFiles).length ∧
      cleanupIfNeeded 10 c6wFiles = (sortByAtime c6wFiles).drop k ∧
      5 * (totalSize c6wFiles - totalSize ((sortByAtime c6wFiles).take k)) ≤ 4 * 10 ∧
      (∀ j, 1 ≤ j → j < k →
        4 * 10 < 5 * (totalSize c6wFiles - totalSize ((sortByAtime c6wFiles).take j)))) :=
  ⟨(c6_cleanup_oldest_first_until_headroom 20 c6wFiles).1 (by decide),
   ((c6_cleanup_oldest_first_until_headroom 10 c6wFiles).2 (by decide)).2.2⟩

end MapBot

namespace MapConf

/-! The geographic scale factor (`core/map_config.py`,
`MapConfig.calculate_geographic_scale_factor`; C9).  The source computes
with floats and `math.cos` / `math.log10`; it is embedded over the reals.
For the reference region the claim survives the idealization: the source
divides the target area by the reference area computed by the *identical*
expression on the identical table entry, and IEEE division of a finite
nonzero float by itself is exactly `1.0`, after which the non-strict
`> 1.0` branch test, the identity branch and the clamp all preserve the
exact value just as in the real-valued model. -/

/-- Region bounds `[[lat0, lng0], [lat1, lng1]]`, with the table's decimal
literals carried exactly as rationals. -/
structure Bounds where
  lat0 : ℚ
  lng0 : ℚ
  lat1 : ℚ
  lng1 : ℚ

/-- The `MAP_REGIONS` table (every entry, `bounds` field only). -/
def mapRegions (r : String) : Option Bounds :=
  if r = "world" then some ⟨-65.0, -180.0, 85.0, 180.0⟩
  else if r = "europe" then some ⟨34.5, -25.0, 73.0, 40.0⟩
  else if r = "germany" then some ⟨47.2701, 5.8663, 55.0583, 15.0419⟩
  else if r = "asia" then some ⟨-8.0, 24.0, 82.0, 180.0⟩
  else if r = "northamerica" then some ⟨5.0, -180.0, 82.0, -50.0⟩
  else if r = "southamerica" then some ⟨-60.0, -85.0, 20.0, -33.0⟩
  else if r = "africa" then some ⟨-40.0, -20.0, 40.0, 60.0⟩
  else if r = "australia" then some ⟨-45.0, 110.0, -10.0, 155.0⟩
  else if r = "usmainland" then some ⟨24.0, -126.0, 51.0, -66.0⟩
  else if r = "france" then some ⟨41.0, -5.5, 51.5, 9.5⟩
  else if r = "spain" then some ⟨35.0, -10.0, 44.0, 5.0⟩
  else if r = "italy" then some ⟨35.5, 6.0, 47.5, 19.0⟩
  else if r = "poland" then some ⟨49.0, 14.0, 55.0, 24.5⟩
  else if r = "netherlands" then some ⟨50.5, 3.0, 54.0, 7.5⟩
  else if r = "belgium" then some ⟨49.0, 2.0, 52.0, 6.5⟩
  else if r = "austria" then some ⟨46.0, 9.0, 49.5, 17.5⟩
  else if r = "czech" then some ⟨48.0, 12.0, 51.5, 19.0⟩
  else if r = "hungary" then some ⟨45.5, 16.0, 48.5, 23.0⟩
  else if r = "portugal" then some ⟨36.0, -10.0, 42.5, -6.0⟩
  else if r = "greece" then some ⟨34.5, 19.0, 42.0, 29.0⟩
  else if r = "sweden" then some ⟨55.0, 10.0, 69.5, 25.0⟩
  else if r = "norway" then some ⟨57.5, 4.0, 71.5, 32.0⟩
  else if r = "denmark" then some ⟨54.0, 7.0, 58.0, 16.0⟩
  else if r = "finland" then some ⟨59.5, 19.0, 70.5, 32.0⟩
  else if r = "romania" then some ⟨43.5, 20.0, 48.5, 30.0⟩
  else if r = "bulgaria" then some ⟨41.0, 22.0, 44.5, 29.0⟩
  else if r = "croatia" then some ⟨42.0, 13.0, 46.5, 19.5⟩
  else if r = "slovenia" then some ⟨45.0, 13.0, 47.0, 16.5⟩
  else if r = "slovakia" then some ⟨47.5, 16.5, 49.5, 22.5⟩
  else if r = "ireland" then some ⟨51.0, -11.0, 55.5, -5.5⟩
  else if r = "lithuania" then some ⟨53.5, 20.5, 56.5, 27.0⟩
  else if r = "latvia" then some ⟨55.5, 20.5, 58.5, 28.5⟩
  else if r = "estonia" then some ⟨57.5, 21.5, 59.5, 28.5⟩
  else if r = "luxembourg" then some ⟨49.0, 5.5, 50.5, 6.5⟩
  else if r = "malta" then some ⟨35.7, 14.0, 36.2, 14.8⟩
  else if r = "cyprus" then some ⟨34.5, 32.0, 35.8, 34.8⟩
  else if r = "switzerland" then some ⟨45.5, 5.5, 48.0, 11.0⟩
  else if r = "ukraine" then some ⟨44.0, 22.0, 53.0, 41.0⟩
  else if r = "russia" then some ⟨41.0, 19.0, 82.0, 180.0⟩
  else if r = "turkey" then some ⟨35.5, 25.5, 42.5, 45.0⟩
  else if r = "unitedkingdom" then some ⟨49.0, -8.0, 61.0, 2.0⟩
  else if r = "japan" then some ⟨24.0, 123.0, 46.0, 146.0⟩
  else if r = "southkorea" then some ⟨33.0, 124.5, 39.0, 132.0⟩
  else if r = "brazil" then some ⟨-34.0, -74.5, 6.0, -34.0⟩
  else if r = "canada" then some ⟨42.0, -141.0, 84.0, -52.0⟩
  else if r = "mexico" then some ⟨14.0, -118.0, 33.0, -86.0⟩
  else none

/-- `math.radians`. -/
noncomputable def radians (x : ℝ) : ℝ := x * Real.pi / 180

/-- The corrected-area expression applied by the source to the reference
and to the target alike:
`lat_range * (lng_range * cos(radians(center_lat)))`. -/
noncomputable def correctedArea (b : Bounds) : ℝ :=
  ((b.lat1 : ℝ) - (b.lat0 : ℝ)) *
    (((b.lng1 : ℝ) - (b.lng0 : ℝ)) *
      Real.cos (radians (((b.lat0 : ℝ) + (b.lat1 : ℝ)) / 2)))

/-- The branching on the area ratio: logarithmic damping above `1`,
identity below. -/
noncomputable def scaleRaw (ratio : ℝ) : ℝ :=
  if 1 < ratio then 1 + Real.logb 10 ratio * 0.5 else ratio

/-- The final clamp `max(0.3, min(sf, 8.0))`. -/
noncomputable def clampSF (x : ℝ) : ℝ := max 0.3 (min x 8)

/-- `MapConfig.calculate_geographic_scale_factor`: reference area from the
`germany` table entry; custom bounds take precedence over the region
lookup; an unknown region (with no custom bounds) returns `1.0` before any
ratio computation. -/
noncomputable def calculateGeographicScaleFactor
    (region : String) (customBounds : Option Bounds) : ℝ :=
  let germany := (mapRegions "germany").getD ⟨0, 0, 0, 0⟩
  let germanyArea := correctedArea germany
  match customBounds with
  | some b => clampSF (scaleRaw (correctedArea b / germanyArea))
  | none =>
      match mapRegions region with
      | some b => clampSF (scaleRaw (correctedArea b / germanyArea))
      | none => 1

/-- The reference region's corrected area is strictly positive: both
extents are positive and the centre latitude `51.1642°` lies strictly
inside `(-90°, 90°)`, where the cosine is positive. -/
theorem germany_correctedArea_pos :
    0 < correctedArea ⟨47.2701, 5.8663, 55.0583, 15.0419⟩ := by
  unfold correctedArea
  have hlat : (0 : ℝ) < ((55.0583 : ℚ) : ℝ) - ((47.2701 : ℚ) : ℝ) := by
    push_cast
    norm_num
  have hlng : (0 : ℝ) < ((15.0419 : ℚ) : ℝ) - ((5.8663 : ℚ) : ℝ) := by
    push_cast
    norm_num
  have hcos : 0 < Real.cos (radians ((((47.2701 : ℚ) : ℝ) + ((55.0583 : ℚ) : ℝ)) / 2)) := by
    apply Real.cos_pos_of_mem_Ioo
    constructor
    · have h1 : (0 : ℝ) < (((47.2701 : ℚ) : ℝ) + ((55.0583 : ℚ) : ℝ)) / 2 := by
        push_cast
        norm_num
      have h2 : (0 : ℝ) < radians ((((47.2701 : ℚ) : ℝ) + ((55.0583 : ℚ) : ℝ)) / 2) := by
        unfold radians
        positivity
      linarith [Real.pi_pos]
    · unfold radians
      have hc : (((47.2701 : ℚ) : ℝ) + ((55.0583 : ℚ) : ℝ)) / 2 < 90 := by
        push_cast
        norm_num
      have h3 : (((47.2701 : ℚ) : ℝ) + ((55.0583 : ℚ) : ℝ)) / 2 * Real.pi / 180 <
          90 * Real.pi / 180 := by
        have hp := Real.pi_pos
        gcongr
      calc (((47.2701 : ℚ) : ℝ) + ((55.0583 : ℚ) : ℝ)) / 2 * Real.pi / 180 <
          90 * Real.pi / 180 := h3
        _ = Real.pi / 2 := by ring
  positivity

/-- C9: the geographic scale factor of the reference region `"germany"`
(with no custom bounds) is exactly `1`. -/
theorem c9_germany_scale_factor_exactly_one :
    calculateGeographicScaleFactor "germany" none = 1 := by
  have hg : mapRegions "germany" = some ⟨47.2701, 5.8663, 55.0583, 15.0419⟩ := by rfl
  unfold calculateGeographicScaleFactor
  rw [hg]
  simp only [Option.getD_some]
  have hA := germany_correctedArea_pos
  rw [div_self (ne_of_gt hA)]
  unfold scaleRaw
  rw [if_neg (lt_irrefl (1 : ℝ))]
  unfold clampSF
  rw [min_eq_left (by norm_num : (1 : ℝ) ≤ 8)]
  rw [max_eq_right (by norm_num : (0.3 : ℝ) ≤ 1)]

end MapConf

namespace Render

open MapBot

/-! The base-map renderer (`core/map_gen.py`, `MapGenerator.render_base_map`
with `ShapefileRenderer` and the color helpers; C3, C4). -/

/-- `MapConfig.DEFAULT_WATER_COLOR`. -/
def DEFAULT_WATER_COLOR : Nat × Nat × Nat := (168, 213, 242)

/-- Value of a decimal digit run. -/
def natOfDigits (cs : List Char) : Nat :=
  cs.foldl (fun acc c => acc * 10 + (c.toNat - 48)) 0

/-- Exact value of a Python numeric literal as a (not necessarily reduced)
numerator/denominator pair over the integers: optional sign, integer
digits, optional fraction, optional decimal exponent.  Returns `none` on
anything else (the shapes `repr(float)` and JSON emit are all accepted). -/
def ratOfLit (lit : String) : Option (Int × Nat) :=
  let cs := lit.data
  let neg : Bool := cs.head? == some '-'
  let cs := if neg || (cs.head? == some '+') then cs.tail else cs
  let ip := cs.takeWhile Char.isDigit
  let rest := cs.dropWhile Char.isDigit
  if ip.isEmpty then none
  else
    let withFrac : Option (Nat × Nat × List Char) :=
      match rest with
      | '.' :: rest2 =>
          let fp := rest2.takeWhile Char.isDigit
          let rest3 := rest2.dropWhile Char.isDigit
          if fp.isEmpty then none
          else some (natOfDigits ip * 10 ^ fp.length + natOfDigits fp,
            10 ^ fp.length, rest3)
      | _ => some (natOfDigits ip, 1, rest)
    match withFrac with
    | none => none
    | some (n, d, rest3) =>
        let num : Int := if neg then -(n : Int) else (n : Int)
        match rest3 with
        | [] => some (num, d)
        | e :: rest4 =>
            if e == 'e' || e == 'E' then
              let eneg : Bool := rest4.head? == some '-'
              let rest5 := if eneg || (rest4.head? == some '+') then rest4.tail else rest4
              let ed := rest5.takeWhile Char.isDigit
              if ed.isEmpty || !(rest5.dropWhile Char.isDigit).isEmpty then none
              else if eneg then some (num, d * 10 ^ natOfDigits ed)
              else some (num * (10 ^ natOfDigits ed : Nat), d)
            else none

example : ratOfLit "52.5" = some (525, 10) := by decide
example : ratOfLit "-33.91" = some (-3391, 100) := by decide
example : ratOfLit "1e2" = some (100, 1) := by decide

/-- Python `int()` truncation toward zero of an exact numerator/denominator
pair. -/
def pyTrunc (q : Int × Nat) : Int := Int.tdiv q.1 (q.2 : Int)

/-- Value of one hex digit, as accepted by `int(s, 16)`. -/
def hexVal (c : Char) : Option Nat :=
  if '0' ≤ c ∧ c ≤ '9' then some (c.toNat - 48)
  else if 'a' ≤ c ∧ c ≤ 'f' then some (c.toNat - 87)
  else if 'A' ≤ c ∧ c ≤ 'F' then some (c.toNat - 55)
  else none

/-- Value of a two-hex-digit pair. -/
def hexPair (a b : Char) : Option Nat :=
  match hexVal a, hexVal b with
  | some x, some y => some (16 * x + y)
  | _, _ => none

/-- Numeric value of a JSON scalar the way `isinstance(x, (int, float))`
sees it (booleans, though `int` in Python, never appear as color entries in
the repository and are mapped to `none`). -/
def colorEntryVal : JVal → Option (Int × Nat)
  | .num lit => ratOfLit lit
  | _ => none

/-- `MapGenerator._ensure_color_tuple`: a 3-element tuple/list of numbers
each within `[0, 255]` is truncated to ints; a 7-character `#rrggbb` string
is hex-decoded; everything else falls back to the supplied default. -/
def ensureColorTuple (v : JVal) (dflt : Nat × Nat × Nat) : Nat × Nat × Nat :=
  match v with
  | .arr (JArr.cons a (JArr.cons b (JArr.cons c JArr.nil))) =>
      (match colorEntryVal a, colorEntryVal b, colorEntryVal c with
       | some r, some g, some bl =>
           if 0 ≤ r.1 ∧ r.1 ≤ 255 * (r.2 : Int) ∧ 0 ≤ g.1 ∧ g.1 ≤ 255 * (g.2 : Int) ∧
               0 ≤ bl.1 ∧ bl.1 ≤ 255 * (bl.2 : Int) then
             ((pyTrunc r).toNat, (pyTrunc g).toNat, (pyTrunc bl).toNat)
           else dflt
       | _, _, _ => dflt)
  | .str s =>
      (match s.data with
       | ['#', a, b, c, d, e, f] =>
           (match hexPair a b, hexPair c d, hexPair e f with
            | some r, some g, some bl => (r, g, bl)
            | _, _, _ => dflt)
       | _ => dflt)
  | _ => dflt

example : ensureColorTuple (JVal.str "#0a1B2c") (0, 0, 0) = (10, 27, 44) := by decide
example : ensureColorTuple (JVal.arrL [JVal.num "10.5", JVal.num "20", JVal.num "255"])
    (0, 0, 0) = (10, 20, 255) := by decide
example : ensureColorTuple (JVal.str "#zz0000") (1, 2, 3) = (1, 2, 3) := by decide

/-- The water color reaching the canvas: `get_map_colors` resolves
`settings['colors']['water']` through `_ensure_color_tuple` with the water
default (an absent entry yields the default, which the second
`_ensure_color_tuple` in `render_base_map` maps to itself, as it does any
in-range integer tuple); without a guild context the default is used
directly.  A non-dict `colors` value would raise `.get` in the source and
never occurs; it is mapped to the absent case. -/
def waterColorOf (guild : Option String) (maps : Maps) : Nat × Nat × Nat :=
  match guild with
  | none => DEFAULT_WATER_COLOR
  | some g =>
      let settings := (getGuild maps g).settings
      let colors := match settings.lookup "colors" with
        | some (JVal.obj o) => o
        | _ => JObj.nil
      match colors.lookup "water" with
      | some v => ensureColorTuple v DEFAULT_WATER_COLOR
      | none => DEFAULT_WATER_COLOR

/-- One drawn layer of the base map, in drawing order. -/
inductive Layer where
  | land
  | lakes
  | rivers
  | states
  | countries
  deriving DecidableEq

/-- The raster canvas, abstracted to its observable construction: the
dimensions and fill color given to `Image.new`, and the trace of layers
drawn onto it (`draw_polygons` / `draw_lines` append to the trace; their
pixel output is not modelled). -/
structure Canvas where
  width : Nat
  height : Nat
  fill : Nat × Nat × Nat
  layers : List Layer
  deriving DecidableEq

/-- Appending one drawn layer. -/
def addLayer (c : Canvas) (l : Layer) : Canvas :=
  ⟨c.width, c.height, c.fill, c.layers ++ [l]⟩

/-- The closure returned by `create_projection_function`: it captures the
bounds and dimensions; `to_px` is the linear interpolation it performs,
with Python `int()` truncation. -/
structure Projector where
  minx : Int
  miny : Int
  maxx : Int
  maxy : Int
  width : Nat
  height : Nat
  deriving DecidableEq

/-- `MapGenerator.create_projection_function` (closure creation itself
cannot raise; the divisions happen at call time inside `to_px`). -/
def createProjectionFunction (minx miny maxx maxy : Int) (w h : Nat) : Projector :=
  ⟨minx, miny, maxx, maxy, w, h⟩

/-- The nondeterministic environment of one render: which shapefile layers
load (absent files are logged and skipped, never fatal), which drawing
calls raise, which snapshot constructions (`img.copy()`/`save`) raise, and
at which invocations the caller's progress callback raises.  `cbRaises`
takes the milestone percentage and whether a snapshot buffer is attached. -/
structure RenderEnv where
  hasCallback : Bool
  hasLand : Bool
  hasLakes : Bool
  hasRivers : Bool
  hasStates : Bool
  hasWorld : Bool
  drawLandFails : Bool
  drawLakesFails : Bool
  drawRiversFails : Bool
  drawStatesFails : Bool
  drawWorldFails : Bool
  snapshotFails : Nat → Bool
  cbRaises : Nat → Bool → Bool

/-- The non-environment inputs of `render_base_map`.  `guild` is `some`
exactly when the source's `if guild_id and maps:` is truthy (an empty-string
id or empty maps dict count as absent).  The zoom level and region only
affect logging and line widths, which have no observable effect here. -/
structure RenderParams where
  minx : Int
  miny : Int
  maxx : Int
  maxy : Int
  width : Nat
  height : Nat
  mapType : String
  guild : Option String
  maps : Maps

/-- One `await progress_callback(msg, pct)` or
`await progress_callback(msg, pct, buffer)` call site, guarded by
`if progress_callback:`. -/
def cbCall (env : RenderEnv) (pct : Nat) (snap : Bool) : Except Unit Unit :=
  if env.hasCallback && env.cbRaises pct snap then .error () else .ok ()

/-- The `try: copy/save/callback-with-snapshot except: bare callback`
blocks after the land, lakes and country-border stages.  The inner `try`
absorbs a failing copy/save or a callback that raises on the snapshot
call; the bare retry in its `except` can still raise outward. -/
def snapshotStep (env : RenderEnv) (pct : Nat) : Except Unit Unit :=
  if env.hasCallback then
    if env.snapshotFails pct || env.cbRaises pct true then
      if env.cbRaises pct false then .error () else .ok ()
    else .ok ()
  else .ok ()

/-- The land stage: milestone 40, `draw_polygons` on the land geometry
(whose geometry iteration can raise), then the snapshot block at 45. -/
def landStage (env : RenderEnv) (img : Canvas) : Except Unit Canvas :=
  if env.hasLand then
    match cbCall env 40 false with
    | .error e => .error e
    | .ok _ =>
        if env.drawLandFails then .error ()
        else
          match snapshotStep env 45 with
          | .error e => .error e
          | .ok _ => .ok (addLayer img .land)
  else .ok img

/-- The lakes stage: milestone 55, lake polygons in water color, snapshot
block at 60. -/
def lakesStage (env : RenderEnv) (img : Canvas) : Except Unit Canvas :=
  if env.hasLakes then
    match cbCall env 55 false with
    | .error e => .error e
    | .ok _ =>
        if env.drawLakesFails then .error ()
        else
          match snapshotStep env 60 with
          | .error e => .error e
          | .ok _ => .ok (addLayer img .lakes)
  else .ok img

/-- The rivers stage: skipped for world maps, milestone 70. -/
def riversStage (env : RenderEnv) (mapType : String) (img : Canvas) :
    Except Unit Canvas :=
  if mapType != "world" && env.hasRivers then
    match cbCall env 70 false with
    | .error e => .error e
    | .ok _ => if env.drawRiversFails then .error () else .ok (addLayer img .rivers)
  else .ok img

/-- The continent-scale map types for which state borders are skipped. -/
def continentMapTypes : List String :=
  ["world", "europe", "asia", "africa", "northamerica", "southamerica", "australia"]

/-- The state/province border stage: skipped for continent-scale maps,
milestone 85. -/
def statesStage (env : RenderEnv) (mapType : String) (img : Canvas) :
    Except Unit Canvas :=
  if !(continentMapTypes.contains mapType) && env.hasStates then
    match cbCall env 85 false with
    | .error e => .error e
    | .ok _ => if env.drawStatesFails then .error () else .ok (addLayer img .states)
  else .ok img

/-- The country border stage: milestone 95, drawing, snapshot block at 98. -/
def worldStage (env : RenderEnv) (img : Canvas) : Except Unit Canvas :=
  if env.hasWorld then
    match cbCall env 95 false with
    | .error e => .error e
    | .ok _ =>
        if env.drawWorldFails then .error ()
        else
          match snapshotStep env 98 with
          | .error e => .error e
          | .ok _ => .ok (addLayer img .countries)
  else .ok img

/-- The protected region of `render_base_map` (everything inside its
`try:`): color resolution (total in this model: the settings are typed, so
the lookups cannot raise), milestone 15, shapefile loading (never raises:
every per-file failure is caught and yields an absent layer), projection
creation, milestone 25, the blank water-filled canvas, the five drawing
stages, and milestone 100.  Line-width computation sits between the lakes
and rivers stages; it is total and observably irrelevant here. -/
def renderTry (env : RenderEnv) (p : RenderParams) :
    Except Unit (Canvas × Projector) :=
  match cbCall env 15 false with
  | .error e => .error e
  | .ok _ =>
  match cbCall env 25 false with
  | .error e => .error e
  | .ok _ =>
  match landStage env ⟨p.width, p.height, waterColorOf p.guild p.maps, []⟩ with
  | .error e => .error e
  | .ok img1 =>
  match lakesStage env img1 with
  | .error e => .error e
  | .ok img2 =>
  match riversStage env p.mapType img2 with
  | .error e => .error e
  | .ok img3 =>
  match statesStage env p.mapType img3 with
  | .error e => .error e
  | .ok img4 =>
  match worldStage env img4 with
  | .error e => .error e
  | .ok img5 =>
  match cbCall env 100 false with
  | .error e => .error e
  | .ok _ =>
      .ok (img5, createProjectionFunction p.minx p.miny p.maxx p.maxy p.width p.height)

/-- The result of `render_base_map`, with a ghost flag recording whether
the `except` fallback produced it. -/
structure RenderResult where
  canvas : Canvas
  proj : Projector
  fallback : Bool
  deriving DecidableEq

/-- `MapGenerator.render_base_map`.  The initial milestone-5 callback runs
*before* the `try:`, so an exception there propagates to the caller.  The
`except` branch builds a flat canvas filled with the already-resolved water
color (`water_color` is bound before anything in the protected region can
raise, and the model's color resolution is total, so the
`'water_color' in locals()` test always succeeds there) and a fresh
projector over the same bounds. -/
def renderBaseMap (env : RenderEnv) (p : RenderParams) :
    Except Unit RenderResult :=
  match cbCall env 5 false with
  | .error e => .error e
  | .ok _ =>
      match renderTry env p with
      | .ok r => .ok ⟨r.1, r.2, false⟩
      | .error _ =>
          .ok ⟨⟨p.width, p.height, waterColorOf p.guild p.maps, []⟩,
            createProjectionFunction p.minx p.miny p.maxx p.maxy p.width p.height,
            true⟩

/-- The layer trace of a fully successful render, given which shapefiles
are present and the map type. -/
def expectedLayers (env : RenderEnv) (mapType : String) : List Layer :=
  (if env.hasLand then [Layer.land] else []) ++
  (if env.hasLakes then [Layer.lakes] else []) ++
  (if mapType != "world" && env.hasRivers then [Layer.rivers] else []) ++
  (if !(continentMapTypes.contains mapType) && env.hasStates then [Layer.states] else []) ++
  (if env.hasWorld then [Layer.countries] else [])

theorem landStage_ok {env : RenderEnv} {img img' : Canvas}
    (h : landStage env img = .ok img') :
    img'.width = img.width ∧ img'.height = img.height ∧ img'.fill = img.fill := by
  unfold landStage at h
  repeat' split at h
  all_goals first
    | exact Except.noConfusion h
    | (simp only [Except.ok.injEq] at h; subst h; exact ⟨rfl, rfl, rfl⟩)

theorem lakesStage_ok {env : RenderEnv} {img img' : Canvas}
    (h : lakesStage env img = .ok img') :
    img'.width = img.width ∧ img'.height = img.height ∧ img'.fill = img.fill := by
  unfold lakesStage at h
  repeat' split at h
  all_goals first
    | exact Except.noConfusion h
    | (simp only [Except.ok.injEq] at h; subst h; exact ⟨rfl, rfl, rfl⟩)

theorem riversStage_ok {env : RenderEnv} {mt : String} {img img' : Canvas}
    (h : riversStage env mt img = .ok img') :
    img'.width = img.width ∧ img'.height = img.height ∧ img'.fill = img.fill := by
  unfold riversStage at h
  repeat' split at h
  all_goals first
    | exact Except.noConfusion h
    | (simp only [Except.ok.injEq] at h; subst h; exact ⟨rfl, rfl, rfl⟩)

theorem statesStage_ok {env : RenderEnv} {mt : String} {img img' : Canvas}
    (h : statesStage env mt img = .ok img') :
    img'.width = img.width ∧ img'.height = img.height ∧ img'.fill = img.fill := by
  unfold statesStage at h
  repeat' split at h
  all_goals first
    | exact Except.noConfusion h
    | (simp only [Except.ok.injEq] at h; subst h; exact ⟨rfl, rfl, rfl⟩)

theorem worldStage_ok {env : RenderEnv} {img img' : Canvas}
    (h : worldStage env img = .ok img') :
    img'.width = img.width ∧ img'.height = img.height ∧ img'.fill = img.fill := by
  unfold worldStage at h
  repeat' split at h
  all_goals first
    | exact Except.noConfusion h
    | (simp only [Except.ok.injEq] at h; subst h; exact ⟨rfl, rfl, rfl⟩)

/-- Every successful pass through the protected region returns a canvas of
the requested dimensions, filled with the resolved water color, together
with the projector over the same bounds. -/
theorem renderTry_ok {env : RenderEnv} {p : RenderParams} {img : Canvas}
    {proj : Projector} (h : renderTry env p = .ok (img, proj)) :
    img.width = p.width ∧ img.height = p.height ∧
    img.fill = waterColorOf p.guild p.maps ∧
    proj = createProjectionFunction p.minx p.miny p.maxx p.maxy p.width p.height := by
  unfold renderTry at h
  cases h15 : cbCall env 15 false with
  | error e => rw [h15] at h; simp at h
  | ok u =>
  simp only [h15] at h
  cases h25 : cbCall env 25 false with
  | error e => rw [h25] at h; simp at h
  | ok u2 =>
  simp only [h25] at h
  cases h1 : landStage env ⟨p.width, p.height, waterColorOf p.guild p.maps, []⟩ with
  | error e => rw [h1] at h; simp at h
  | ok img1 =>
  simp only [h1] at h
  cases h2 : lakesStage env img1 with
  | error e => rw [h2] at h; simp at h
  | ok img2 =>
  simp only [h2] at h
  cases h3 : riversStage env p.mapType img2 with
  | error e => rw [h3] at h; simp at h
  | ok img3 =>
  simp only [h3] at h
  cases h4 : statesStage env p.mapType img3 with
  | error e => rw [h4] at h; simp at h
  | ok img4 =>
  simp only [h4] at h
  cases h5 : worldStage env img4 with
  | error e => rw [h5] at h; simp at h
  | ok img5 =>
  simp only [h5] at h
  cases h100 : cbCall env 100 false with
  | error e => rw [h100] at h; simp at h
  | ok u3 =>
  simp only [h100] at h
  simp only [Except.ok.injEq, Prod.mk.injEq] at h
  obtain ⟨himg, hproj⟩ := h
  subst himg
  subst hproj
  have P1 := landStage_ok h1
  have P2 := lakesStage_ok h2
  have P3 := riversStage_ok h3
  have P4 := statesStage_ok h4
  have P5 := worldStage_ok h5
  refine ⟨?_, ?_, ?_, rfl⟩
  · exact P5.1.trans (P4.1.trans (P3.1.trans (P2.1.trans P1.1)))
  · exact P5.2.1.trans (P4.2.1.trans (P3.2.1.trans (P2.2.1.trans P1.2.1)))
  · exact P5.2.2.trans (P4.2.2.trans (P3.2.2.trans (P2.2.2.trans P1.2.2)))

/-- C3 (amended).  Provided the progress callback does not raise at the
initial milestone-5 invocation — which the source performs *before* its
`try:`, so a failure there does propagate — `render_base_map` never
propagates an exception: for every environment (missing shapefiles, failing
drawing calls, failing snapshots, failing later callbacks) it returns a
canvas of the requested width and height filled with the configured (or
default) water color together with a valid projector for the same bounds,
and whenever the fallback path produced the result the canvas is flat (no
layer was drawn on it). -/
theorem c3_render_returns_fallback_never_throws
    (env : RenderEnv) (p : RenderParams)
    (h5 : env.hasCallback = true → env.cbRaises 5 false = false) :
    ∃ r : RenderResult,
      renderBaseMap env p = .ok r ∧
      r.canvas.width = p.width ∧
      r.canvas.height = p.height ∧
      r.canvas.fill = waterColorOf p.guild p.maps ∧
      r.proj = createProjectionFunction p.minx p.miny p.maxx p.maxy p.width p.height ∧
      (r.fallback = true → r.canvas.layers = []) := by
  have h5' : cbCall env 5 false = .ok () := by
    unfold cbCall
    cases hc : env.hasCallback
    · simp
    · simp [h5 hc]
  unfold renderBaseMap
  rw [h5']
  cases hres : renderTry env p with
  | error e =>
      exact ⟨_, rfl, rfl, rfl, rfl, rfl, fun _ => rfl⟩
  | ok pr =>
      obtain ⟨img, proj⟩ := pr
      have hp := renderTry_ok hres
      refine ⟨⟨img, proj, false⟩, rfl, hp.1, hp.2.1, hp.2.2.1, hp.2.2.2, ?_⟩
      intro hf
      exact absurd hf (by simp)

/-- C4 (amended).  If the progress callback never raises on its
snapshot-less invocations, rendering always completes every drawing step
that its inputs allow — even when every snapshot construction fails and
the callback raises on every snapshot-carrying invocation, because those
calls sit inside the renderer's inner `try` whose `except` retries the
callback bare.  A raise at a bare milestone inside the pipeline, by
contrast, aborts to the fallback canvas (see the counterexample). -/
theorem c4_snapshot_callback_failures_do_not_abort
    (env : RenderEnv) (p : RenderParams)
    (hbare : ∀ pct, env.cbRaises pct false = false)
    (hL : env.drawLandFails = false) (hK : env.drawLakesFails = false)
    (hR : env.drawRiversFails = false) (hS : env.drawStatesFails = false)
    (hW : env.drawWorldFails = false) :
    renderBaseMap env p =
      .ok ⟨⟨p.width, p.height, waterColorOf p.guild p.maps,
            expectedLayers env p.mapType⟩,
        createProjectionFunction p.minx p.miny p.maxx p.maxy p.width p.height,
        false⟩ := by
  have hcb : ∀ pct, cbCall env pct false = .ok () := by
    intro pct
    unfold cbCall
    rw [hbare pct]
    simp
  have hsnap : ∀ pct, snapshotStep env pct = .ok () := by
    intro pct
    unfold snapshotStep
    rw [hbare pct]
    cases env.hasCallback <;> simp
  have hland : ∀ img, landStage env img =
      .ok (if env.hasLand then addLayer img .land else img) := by
    intro img
    unfold landStage
    cases hl : env.hasLand <;> simp [hcb 40, hL, hsnap 45]
  have hlakes : ∀ img, lakesStage env img =
      .ok (if env.hasLakes then addLayer img .lakes else img) := by
    intro img
    unfold lakesStage
    cases hl : env.hasLakes <;> simp [hcb 55, hK, hsnap 60]
  have hrivers : ∀ img, riversStage env p.mapType img =
      .ok (if p.mapType != "world" && env.hasRivers then addLayer img .rivers else img) := by
    intro img
    unfold riversStage
    cases hl : (p.mapType != "world" && env.hasRivers) <;> simp [hl, hcb 70, hR]
  have hstates : ∀ img, statesStage env p.mapType img =
      .ok (if !(continentMapTypes.contains p.mapType) && env.hasStates then
        addLayer img .states else img) := by
    intro img
    unfold statesStage
    cases hl : (!(continentMapTypes.contains p.mapType) && env.hasStates) <;>
      simp [hl, hcb 85, hS]
  have hworld : ∀ img, worldStage env img =
      .ok (if env.hasWorld then addLayer img .countries else img) := by
    intro img
    unfold worldStage
    cases hl : env.hasWorld <;> simp [hcb 95, hW, hsnap 98]
  cases hLd : env.hasLand <;> cases hLk : env.hasLakes <;>
    cases hRv : (p.mapType != "world" && env.hasRivers) <;>
    cases hSt : (!(continentMapTypes.contains p.mapType) && env.hasStates) <;>
    cases hWd : env.hasWorld <;>
    simp [renderBaseMap, renderTry, hcb, hland, hlakes, hrivers, hstates, hworld,
      expectedLayers, addLayer, hLd, hLk, hRv, hSt, hWd] <;>
    (try (split <;> simp))

/-- Concrete render parameters for the counterexamples and witnesses. -/
def cexParams : RenderParams := ⟨0, 0, 10, 5, 100, 50, "germany", none, []⟩

/-- Every layer present, nothing fails except the callback, which raises at
its very first invocation (milestone 5, no snapshot). -/
def c3CexEnv : RenderEnv :=
  ⟨true, true, true, true, true, true, false, false, false, false, false,
    fun _ => false, fun pct snap => pct == 5 && !snap⟩

/-- C3 counterexample: a progress callback that raises at the initial
milestone makes `render_base_map` propagate the exception — the call sits
before the `try:` — so the function neither returns a rendered map nor the
fallback canvas. -/
theorem c3_counterexample : renderBaseMap c3CexEnv cexParams = .error () := by
  rfl

/-- Every layer present, nothing fails except the callback, which raises at
the bare milestone-15 invocation (inside the protected region). -/
def c4CexEnv : RenderEnv :=
  ⟨true, true, true, true, true, true, false, false, false, false, false,
    fun _ => false, fun pct snap => pct == 15 && !snap⟩

/-- C4 counterexample: a progress callback exception at a snapshot-less
milestone lands in the renderer's outer `except`, so rendering *is*
aborted: the function returns the flat fallback canvas with no layers
drawn, not the fully rendered map (which would have carried all five
layers). -/
theorem c4_counterexample :
    renderBaseMap c4CexEnv cexParams =
      .ok ⟨⟨100, 50, DEFAULT_WATER_COLOR, []⟩, ⟨0, 0, 10, 5, 100, 50⟩, true⟩ ∧
    expectedLayers c4CexEnv "germany" =
      [Layer.land, Layer.lakes, Layer.rivers, Layer.states, Layer.countries] := by
  exact ⟨rfl, rfl⟩

theorem c3_witness :
    ∃ r : RenderResult,
      renderBaseMap c4CexEnv cexParams = .ok r ∧
      r.canvas.width = cexParams.width ∧
      r.canvas.height = cexParams.height ∧
      r.canvas.fill = waterColorOf cexParams.guild cexParams.maps ∧
      r.proj = createProjectionFunction cexParams.minx cexParams.miny
        cexParams.maxx cexParams.maxy cexParams.width cexParams.height ∧
      (r.fallback = true → r.canvas.layers = []) :=
  c3_render_returns_fallback_never_throws c4CexEnv cexParams (fun _ => rfl)

/-- Callback raising on every snapshot-carrying invocation and every
snapshot construction failing. -/
def c4wEnv : RenderEnv :=
  ⟨true, true, true, true, true, true, false, false, false, false, false,
    fun _ => true, fun _ snap => snap⟩

theorem c4_witness :
    renderBaseMap c4wEnv cexParams =
      .ok ⟨⟨cexParams.width, cexParams.height,
            waterColorOf cexParams.guild cexParams.maps,
            expectedLayers c4wEnv cexParams.mapType⟩,
        createProjectionFunction cexParams.minx cexParams.miny cexParams.maxx
          cexParams.maxy cexParams.width cexParams.height,
        false⟩ :=
  c4_snapshot_callback_failures_do_not_abort c4wEnv cexParams
    (fun _ => rfl) rfl rfl rfl rfl rfl

end Render
